import Mathlib

/-!
# DesktopSharing: the session controller and presentation surface of `MainWindow`

A shallow embedding of `src/DesktopSharing/MainWindow.cpp`.

* `MainWindow` is the record of the member variables the file reads or writes.  Pointers are
  kept as a `Bool` (`true`: non-null).
* Everything the file reaches through `ScreenLive::Instance()`, `overlay_->`, `nvenc_info` and
  the SDL functions lives outside the file.  It is gathered in `World`: the state of those
  collaborators plus `log`, the calls issued to them in program order.
* A result that a collaborator decides (the return value of `StartEncoder`, of
  `ScreenLive::StartLive`, of `SDL_CreateTexture`, ...) is an argument of the embedded function,
  so every theorem holds for every such result.
* A member function returns `none` where the C++ execution has no defined behaviour:
  `operator[]` past the end of a settings vector, `atoi` of a number that does not fit `int`,
  or a call through a null `overlay_`.
-/

/-! ## C library -/

/-- The `isspace` test of the C locale: space, and the controls 9 to 13. -/
def isspace (c : Char) : Bool :=
  c.toNat = 32 || (9 ≤ c.toNat && c.toNat ≤ 13)

/-- The decimal value of the longest run of digits at the head of `cs`, on top of `acc`. -/
def atoi_digits : List Char → Nat → Nat
  | [], acc => acc
  | c :: cs, acc =>
    if 48 ≤ c.toNat ∧ c.toNat ≤ 57 then atoi_digits cs (acc * 10 + (c.toNat - 48)) else acc

/-- The mathematical value `atoi` reads: leading white space is skipped, one optional sign is
taken, and the digits up to the first other character are read (no digits: 0). -/
def atoi_value (s : String) : Int :=
  match s.data.dropWhile isspace with
  | [] => 0
  | c :: cs =>
    if c = '-' then -(atoi_digits cs 0 : Int)
    else if c = '+' then (atoi_digits cs 0 : Int)
    else (atoi_digits (c :: cs) 0 : Int)

/-- The C function `atoi`.  The C standard leaves the result undefined when the value is not
representable as `int`; that case is `none`. -/
def atoi (s : String) : Option Int :=
  if -2147483648 ≤ atoi_value s ∧ atoi_value s ≤ 2147483647 then some (atoi_value s) else none

/-- Conversion of an `int` to a 32-bit unsigned integer. -/
def toUInt32 (x : Int) : Nat := (x % 4294967296).toNat

/-! ## Types declared in headers that are not part of the sources -/

/-- Modelled from the spec: `AVConfig` is declared in a header that is missing from the
sources. Spec section 3 gives it as the record of codec identifier, bitrate in bits per second
and frame rate, compared by value. The two numbers are taken as 32-bit unsigned: the source
computes the bitrate as `atoi(...) * 1000U`. The derived equality is its `operator !=`. -/
structure AVConfig where
  bitrate_bps : Nat
  framerate : Nat
  codec : String
deriving DecidableEq, Repr

/-- Modelled from the spec: the three target identifiers the live-target service is keyed by
(spec section 3, `LiveTargetState`); the enumeration itself is in a missing header. -/
inductive ScreenLiveType
  | SCREEN_LIVE_RTSP_SERVER
  | SCREEN_LIVE_RTSP_PUSHER
  | SCREEN_LIVE_RTMP_PUSHER
deriving DecidableEq, Repr

/-- Modelled from the spec: the `int` event type of a request. The three named constants are
declared in a missing header; `other n` is any `int` that is none of them. -/
inductive EventType
  | EVENT_TYPE_RTSP_SERVER
  | EVENT_TYPE_RTSP_PUSHER
  | EVENT_TYPE_RTMP_PUSHER
  | other (n : Int)
deriving DecidableEq, Repr

/-- Modelled from the spec: `LiveConfig` (spec section 3, `LiveTargetConfig`) is declared in a
missing header. A field is `none` while it still holds the value its default construction gave
it, and `some v` once `MainWindow::StartLive` has assigned `v`. -/
structure LiveConfig where
  ip : Option String
  port : Option Int
  suffix : Option String
  rtsp_url : Option String
  rtmp_url : Option String
deriving DecidableEq, Repr

/-- A default-constructed `LiveConfig`: `LiveConfig live_config;`. -/
def LiveConfig.default : LiveConfig :=
  { ip := none, port := none, suffix := none, rtsp_url := none, rtmp_url := none }

/-- The pixel formats `texture_format_` takes in the file. -/
inductive PixelFormat
  | SDL_PIXELFORMAT_UNKNOWN
  | SDL_PIXELFORMAT_ARGB8888
deriving DecidableEq, Repr

/-- The `SDL_Rect` passed to `SDL_RenderCopy`. -/
structure SDL_Rect where
  x : Int
  y : Int
  w : Int
  h : Int
deriving DecidableEq, Repr

/-! ## The collaborators -/

/-- One call issued by `MainWindow` to a collaborator. A call whose result the caller reads
carries that result. -/
inductive Call
  | StopLive (type : ScreenLiveType)
  | StartLive (type : ScreenLiveType) (config : LiveConfig) (ret : Bool)
  | StopEncoder
  | StartEncoder (config : AVConfig) (ret : Int)
  | IsEncoderInitialized (ret : Bool)
  | SetLiveState (event_type : EventType) (state : Bool)
  | SDL_DestroyTexture
  | SDL_CreateTexture (format : PixelFormat) (w h : Nat) (ok : Bool)
  | SDL_LockTexture (ret : Int)
  | memcpy (n : Nat)
  | SDL_UnlockTexture
  | SDL_RenderClear
  | SDL_RenderCopy (rect : SDL_Rect)
  | SDL_RenderPresent
  | SDL_DestroyRenderer
  | SDL_CreateRenderer (index : Int) (flags : Nat) (ok : Bool)
  | SDL_SetRenderDrawColor
  | Overlay_Init (ok : Bool)
  | Overlay_SetRect (rect : SDL_Rect)
  | Overlay_RegisterObserver
  | Overlay_Render
  | Overlay_Destroy
deriving DecidableEq, Repr

/-- Modelled from the spec: the state of the collaborators of `MainWindow`, none of which is
in the sources. `encoder_ready` is the Encoder Service of spec section 4.4 (true from a
successful start to the next stop); `rtsp_server`, `rtsp_pusher`, `rtmp_pusher` are the three
`LiveTargetState`s of spec section 3 (`true`: Running); `nvenc_supported` is what
`nvenc_info.is_supported()` reports on this machine; `log` is the record of calls. -/
structure World where
  nvenc_supported : Bool
  encoder_ready : Bool
  rtsp_server : Bool
  rtsp_pusher : Bool
  rtmp_pusher : Bool
  log : List Call
deriving DecidableEq, Repr

/-- The `LiveTargetState` of one target: `true` is Running. -/
def World.running (w : World) : ScreenLiveType → Bool
  | .SCREEN_LIVE_RTSP_SERVER => w.rtsp_server
  | .SCREEN_LIVE_RTSP_PUSHER => w.rtsp_pusher
  | .SCREEN_LIVE_RTMP_PUSHER => w.rtmp_pusher

/-- Write the `LiveTargetState` of one target. -/
def World.setRunning (w : World) (type : ScreenLiveType) (b : Bool) : World :=
  match type with
  | .SCREEN_LIVE_RTSP_SERVER => { w with rtsp_server := b }
  | .SCREEN_LIVE_RTSP_PUSHER => { w with rtsp_pusher := b }
  | .SCREEN_LIVE_RTMP_PUSHER => { w with rtmp_pusher := b }

/-- Append one call to the record. -/
def World.record (w : World) (c : Call) : World :=
  { w with log := w.log ++ [c] }

/-- Modelled from the spec: `nvenc_info.is_supported()`, the hardware capability check of spec
section 4.2 step 1. -/
def nvenc_info.is_supported (w : World) : Bool := w.nvenc_supported

/-- Modelled from the spec: `ScreenLive::StopLive(type)` (spec section 4.3, `stop`): always
succeeds, the target is Stopped afterwards. -/
def ScreenLive.StopLive (type : ScreenLiveType) (w : World) : World :=
  (w.setRunning type false).record (Call.StopLive type)

/-- Modelled from the spec: `ScreenLive::StartLive(type, config)` (spec section 4.3, `start`).
`ret` is the result the service gives; the target is Running after a successful start, and a
failed one changes no state. -/
def ScreenLive.StartLive (ret : Bool) (type : ScreenLiveType) (config : LiveConfig)
    (w : World) : Bool × World :=
  (ret, ((if ret then w.setRunning type true else w).record (Call.StartLive type config ret)))

/-- Modelled from the spec: `ScreenLive::StopEncoder()` (spec section 4.4, `stop`). -/
def ScreenLive.StopEncoder (w : World) : World :=
  ({ w with encoder_ready := false }).record Call.StopEncoder

/-- Modelled from the spec: `ScreenLive::StartEncoder(config)` (spec section 4.4, `start`).
`ret` is the `int` the service returns; the caller reads a negative value as failure. The
encoder is ready after a successful start, and a failed one changes no state. -/
def ScreenLive.StartEncoder (ret : Int) (config : AVConfig) (w : World) : Int × World :=
  (ret, ((if ret < 0 then w else { w with encoder_ready := true }).record
    (Call.StartEncoder config ret)))

/-- Modelled from the spec: `ScreenLive::IsEncoderInitialized()` (spec section 4.4): whether a
start has succeeded and no stop has occurred since. -/
def ScreenLive.IsEncoderInitialized (w : World) : Bool × World :=
  (w.encoder_ready, w.record (Call.IsEncoderInitialized w.encoder_ready))

/-- Modelled from the spec: `Overlay::SetLiveState(event_type, state)`, the overlay state
callback of spec section 6. -/
def Overlay.SetLiveState (event_type : EventType) (state : Bool) (w : World) : World :=
  w.record (Call.SetLiveState event_type state)

/-! ## `MainWindow` -/

/-- The member variables of `MainWindow` that `MainWindow.cpp` uses. `window_`, `renderer_`,
`overlay_` and `texture_` are pointers: `true` is non-null. -/
structure MainWindow where
  window_width_ : Int
  window_height_ : Int
  video_width_ : Int
  video_height_ : Int
  overlay_width_ : Int
  overlay_height_ : Int
  avconfig_ : AVConfig
  window_ : Bool
  renderer_ : Bool
  overlay_ : Bool
  texture_ : Bool
  texture_format_ : PixelFormat
  texture_width_ : Nat
  texture_height_ : Nat
deriving DecidableEq, Repr

/-- `MainWindow::MainWindow()`, lines 4-16. `kOverlayHeight` is a constant of a missing header
and is a parameter. The members the constructor body does not assign take the values
`ClearD3D` resets them to: null pointers, unknown format, zero size. -/
def MainWindow.new (kOverlayHeight : Int) : MainWindow :=
  { window_width_ := 960
    window_height_ := 740
    video_width_ := 960
    video_height_ := 740 - kOverlayHeight
    overlay_width_ := 960
    overlay_height_ := kOverlayHeight
    avconfig_ := { bitrate_bps := 4000000, framerate := 25, codec := "" }
    window_ := false
    renderer_ := false
    overlay_ := false
    texture_ := false
    texture_format_ := PixelFormat.SDL_PIXELFORMAT_UNKNOWN
    texture_width_ := 0
    texture_height_ := 0 }

/-- `MainWindow::IsWindow`, lines 66-69. -/
def MainWindow.IsWindow (self : MainWindow) : Bool := self.window_

/-- Lines 220-228 of `MainWindow::StartLive`: the candidate `AVConfig` built from
`encoder_settings`, with `h264_nvenc` replaced by `h264` when nvenc is not supported. -/
def MainWindow.StartLive.avconfig (encoder_settings : List String) (w : World) :
    Option AVConfig :=
  match encoder_settings with
  | codec :: framerate :: bitrate :: _ =>
    match atoi framerate, atoi bitrate with
    | some f, some b =>
      some { framerate := toUInt32 f
             bitrate_bps := (toUInt32 b * 1000) % 4294967296
             codec := if codec = "h264_nvenc" then
                        (if !nvenc_info.is_supported w then "h264" else codec)
                      else codec }
    | _, _ => none
  | _ => none

/-- Lines 253-255, 259 and 263 of `MainWindow::StartLive`: the `LiveConfig` the source fills in
for a target from `live_settings`. -/
def MainWindow.StartLive.live_config : ScreenLiveType → List String → Option LiveConfig
  | .SCREEN_LIVE_RTSP_SERVER, ip :: port :: suffix :: _ =>
    match atoi port with
    | some p =>
      some { LiveConfig.default with ip := some ip, port := some p, suffix := some suffix }
    | none => none
  | .SCREEN_LIVE_RTSP_PUSHER, url :: _ => some { LiveConfig.default with rtsp_url := some url }
  | .SCREEN_LIVE_RTMP_PUSHER, url :: _ => some { LiveConfig.default with rtmp_url := some url }
  | _, _ => none

/-- Lines 245-267 of `MainWindow::StartLive`: the encoder check, then the start of the one
requested target. `ret` is the result the live-target service gives if it is called. -/
def MainWindow.StartLive.target (ret : Bool) (self : MainWindow) (event_type : EventType)
    (live_settings : List String) (w : World) : Option (Bool × MainWindow × World) :=
  let (initialized, w) := ScreenLive.IsEncoderInitialized w
  if !initialized then some (false, self, w)
  else
    match event_type with
    | .EVENT_TYPE_RTSP_SERVER =>
      match MainWindow.StartLive.live_config .SCREEN_LIVE_RTSP_SERVER live_settings with
      | some live_config =>
        let (r, w) := ScreenLive.StartLive ret .SCREEN_LIVE_RTSP_SERVER live_config w
        some (r, self, w)
      | none => none
    | .EVENT_TYPE_RTSP_PUSHER =>
      match MainWindow.StartLive.live_config .SCREEN_LIVE_RTSP_PUSHER live_settings with
      | some live_config =>
        let (r, w) := ScreenLive.StartLive ret .SCREEN_LIVE_RTSP_PUSHER live_config w
        some (r, self, w)
      | none => none
    | .EVENT_TYPE_RTMP_PUSHER =>
      match MainWindow.StartLive.live_config .SCREEN_LIVE_RTMP_PUSHER live_settings with
      | some live_config =>
        let (r, w) := ScreenLive.StartLive ret .SCREEN_LIVE_RTMP_PUSHER live_config w
        some (r, self, w)
      | none => none
    | .other _ => some (false, self, w)

/-- Lines 232-238 of `MainWindow::StartLive`: the three target stops, the three overlay
updates and the encoder stop that precede a new encoder start. -/
def MainWindow.StartLive.reset (w : World) : World :=
  let w := ScreenLive.StopLive .SCREEN_LIVE_RTSP_SERVER w
  let w := ScreenLive.StopLive .SCREEN_LIVE_RTSP_PUSHER w
  let w := ScreenLive.StopLive .SCREEN_LIVE_RTMP_PUSHER w
  let w := Overlay.SetLiveState .EVENT_TYPE_RTSP_SERVER false w
  let w := Overlay.SetLiveState .EVENT_TYPE_RTSP_PUSHER false w
  let w := Overlay.SetLiveState .EVENT_TYPE_RTMP_PUSHER false w
  ScreenLive.StopEncoder w

/-- `MainWindow::StartLive`, lines 216-268. `encoder_ret` is what `StartEncoder` returns if it
is called, `live_ret` what `ScreenLive::StartLive` returns if it is called. The result is the
returned `bool`, the members afterwards and the collaborators afterwards. -/
def MainWindow.StartLive (encoder_ret : Int) (live_ret : Bool) (self : MainWindow)
    (event_type : EventType) (encoder_settings : List String) (live_settings : List String)
    (w : World) : Option (Bool × MainWindow × World) :=
  match MainWindow.StartLive.avconfig encoder_settings w with
  | none => none
  | some avconfig =>
    if self.avconfig_ ≠ avconfig then
      -- lines 235-237 call through `overlay_`: a null pointer leaves defined behaviour
      if !self.overlay_ then none
      else
        let w := MainWindow.StartLive.reset w
        let (r, w) := ScreenLive.StartEncoder encoder_ret avconfig w
        if r < 0 then some (false, self, w)
        else
          MainWindow.StartLive.target live_ret { self with avconfig_ := avconfig }
            event_type live_settings w
    else
      MainWindow.StartLive.target live_ret self event_type live_settings w

/-- `MainWindow::StopLive`, lines 270-281. No member is written. -/
def MainWindow.StopLive (self : MainWindow) (event_type : EventType) (w : World) :
    MainWindow × World :=
  match event_type with
  | .EVENT_TYPE_RTSP_SERVER => (self, ScreenLive.StopLive .SCREEN_LIVE_RTSP_SERVER w)
  | .EVENT_TYPE_RTSP_PUSHER => (self, ScreenLive.StopLive .SCREEN_LIVE_RTSP_PUSHER w)
  | .EVENT_TYPE_RTMP_PUSHER => (self, ScreenLive.StopLive .SCREEN_LIVE_RTMP_PUSHER w)
  | .other _ => (self, w)

/-! ## The presentation surface -/

/-- The `SDL_RendererInfo` fields `InitD3D` reads. -/
structure SDL_RendererInfo where
  name : String
  flags : Nat
deriving DecidableEq, Repr

/-- The value of `SDL_RENDERER_SOFTWARE` in the SDL2 headers. -/
def SDL_RENDERER_SOFTWARE : Nat := 1

/-- The value of `SDL_RENDERER_ACCELERATED` in the SDL2 headers. -/
def SDL_RENDERER_ACCELERATED : Nat := 2

/-- The loop of `MainWindow::InitD3D`, lines 95-107, from index `i` on. An entry `none` is a
driver for which `SDL_GetRenderDriverInfo` fails. The pair is `(driver_index, renderer_flags)`. -/
def MainWindow.InitD3D.drivers : List (Option SDL_RendererInfo) → Int → Int × Nat → Int × Nat
  | [], _, acc => acc
  | none :: rest, i, acc => MainWindow.InitD3D.drivers rest (i + 1) acc
  | some info :: rest, i, acc =>
    if info.name = "direct3d" then
      MainWindow.InitD3D.drivers rest (i + 1)
        (i, if info.flags &&& SDL_RENDERER_ACCELERATED ≠ 0 then SDL_RENDERER_ACCELERATED
            else acc.2)
    else MainWindow.InitD3D.drivers rest (i + 1) acc

/-- `MainWindow::InitD3D`, lines 89-131. `drivers` is what SDL enumerates, `renderer_ok` whether
`SDL_CreateRenderer` gives a renderer, `overlay_ok` whether `Overlay::Init` succeeds. The two
`SDL_assert`s are not modelled (they are compiled out unless assertions are enabled). When
`Overlay::Init` fails the source sets `overlay_` to null and calls through it: `none`. -/
def MainWindow.InitD3D (kOverlayHeight : Int) (drivers : List (Option SDL_RendererInfo))
    (renderer_ok overlay_ok : Bool) (self : MainWindow) (w : World) :
    Option (Bool × MainWindow × World) :=
  let (driver_index, renderer_flags) :=
    MainWindow.InitD3D.drivers drivers 0 (-1, SDL_RENDERER_SOFTWARE)
  if driver_index < 0 then some (false, self, w)
  else
    let self := { self with renderer_ := renderer_ok }
    let w := w.record (Call.SDL_CreateRenderer driver_index renderer_flags renderer_ok)
    let w := w.record Call.SDL_SetRenderDrawColor
    let w := w.record Call.SDL_RenderClear
    let w := w.record Call.SDL_RenderPresent
    let w := w.record (Call.Overlay_Init overlay_ok)
    if !overlay_ok then none
    else
      let self := { self with overlay_ := true }
      let w := w.record (Call.Overlay_SetRect
        { x := 0, y := 0 + self.video_height_, w := self.video_width_, h := kOverlayHeight })
      let w := w.record Call.Overlay_RegisterObserver
      some (true, self, w)

/-- `MainWindow::ClearD3D`, lines 133-153. -/
def MainWindow.ClearD3D (self : MainWindow) (w : World) : MainWindow × World :=
  let (self, w) :=
    if self.overlay_ then
      ({ self with overlay_ := false }, w.record Call.Overlay_Destroy)
    else (self, w)
  let (self, w) :=
    if self.texture_ then
      ({ self with
          texture_ := false
          texture_format_ := PixelFormat.SDL_PIXELFORMAT_UNKNOWN
          texture_width_ := 0
          texture_height_ := 0 }, w.record Call.SDL_DestroyTexture)
    else (self, w)
  if self.renderer_ then
    ({ self with renderer_ := false }, w.record Call.SDL_DestroyRenderer)
  else (self, w)

/-- `MainWindow::Resize`, lines 71-87. `size` is what `SDL_GetWindowSize` reports; the other
arguments are those of `InitD3D`, whose result the source ignores. -/
def MainWindow.Resize (kOverlayHeight : Int) (size : Int × Int)
    (drivers : List (Option SDL_RendererInfo)) (renderer_ok overlay_ok : Bool)
    (self : MainWindow) (w : World) : Option (MainWindow × World) :=
  if self.IsWindow then
    let self :=
      { self with
          window_width_ := size.1
          window_height_ := size.2
          video_width_ := size.1
          video_height_ := size.2 - kOverlayHeight
          overlay_width_ := size.1
          overlay_height_ := kOverlayHeight }
    let (self, w) := self.ClearD3D w
    match MainWindow.InitD3D kOverlayHeight drivers renderer_ok overlay_ok self w with
    | some (_, self, w) => some (self, w)
    | none => none
  else some (self, w)

/-- `MainWindow::UpdateARGB`, lines 164-214. `width` and `height` are the `uint32_t`
arguments; `data` is only the source of the `memcpy` and is left out. `create_ok` is whether
`SDL_CreateTexture` gives a texture if it is called, `lock_ret` what `SDL_LockTexture` returns
if it is called. The `SDL_assert` of line 181 is not modelled (it is compiled out unless
assertions are enabled, and lines 187 and 213 handle the null texture). The byte count of
the `memcpy` is the product of line 197 in 32-bit unsigned arithmetic. -/
def MainWindow.UpdateARGB (create_ok : Bool) (lock_ret : Int) (self : MainWindow)
    (width height : Nat) (w : World) : Bool × MainWindow × World :=
  if !self.IsWindow then (false, self, w)
  else
    let (self, w) :=
      if self.texture_format_ ≠ PixelFormat.SDL_PIXELFORMAT_ARGB8888 ∨
          self.texture_width_ ≠ width ∨ self.texture_height_ ≠ height then
        if self.texture_ then
          ({ self with texture_ := false }, w.record Call.SDL_DestroyTexture)
        else (self, w)
      else (self, w)
    let (self, w) :=
      if !self.texture_ then
        ({ self with
            texture_ := create_ok
            texture_format_ := PixelFormat.SDL_PIXELFORMAT_ARGB8888
            texture_width_ := width
            texture_height_ := height },
         w.record (Call.SDL_CreateTexture PixelFormat.SDL_PIXELFORMAT_ARGB8888 width height
           create_ok))
      else (self, w)
    if self.texture_ then
      let w := w.record (Call.SDL_LockTexture lock_ret)
      if lock_ret < 0 then (false, self, w)
      else
        let w := w.record
          (Call.memcpy ((self.texture_width_ * self.texture_height_ * 4) % 4294967296))
        let w := w.record Call.SDL_UnlockTexture
        let w := w.record Call.SDL_RenderClear
        let w := w.record (Call.SDL_RenderCopy
          { x := 0, y := 0, w := self.video_width_, h := self.video_height_ })
        let w := if self.overlay_ then w.record Call.Overlay_Render else w
        let w := w.record Call.SDL_RenderPresent
        (true, self, w)
    else (false, self, w)

/-! ## Sequences of requests -/

/-- One request to the session controller, with the results the services give while it is
handled. -/
inductive Request
  | start (event_type : EventType) (encoder_settings live_settings : List String)
      (encoder_ret : Int) (live_ret : Bool)
  | stop (event_type : EventType)
deriving DecidableEq, Repr

/-- Handle one request: `MainWindow::StartLive` or `MainWindow::StopLive`. -/
def MainWindow.handle (self : MainWindow) (w : World) : Request → Option (MainWindow × World)
  | .start event_type encoder_settings live_settings encoder_ret live_ret =>
    match self.StartLive encoder_ret live_ret event_type encoder_settings live_settings w with
    | some (_, self, w) => some (self, w)
    | none => none
  | .stop event_type => some (self.StopLive event_type w)

/-- Handle a sequence of requests, one after the other. -/
def MainWindow.run (self : MainWindow) (w : World) : List Request → Option (MainWindow × World)
  | [] => some (self, w)
  | r :: rs =>
    match self.handle w r with
    | some (self, w) => MainWindow.run self w rs
    | none => none

/-- The event type that names a target. -/
def ScreenLiveType.event : ScreenLiveType → EventType
  | .SCREEN_LIVE_RTSP_SERVER => .EVENT_TYPE_RTSP_SERVER
  | .SCREEN_LIVE_RTSP_PUSHER => .EVENT_TYPE_RTSP_PUSHER
  | .SCREEN_LIVE_RTMP_PUSHER => .EVENT_TYPE_RTMP_PUSHER

/-- Whether `live_settings` has the entries `MainWindow::StartLive` reads for `event_type`. -/
def MainWindow.StartLive.live_settings_ok : EventType → List String → Bool
  | .EVENT_TYPE_RTSP_SERVER, ls =>
    (MainWindow.StartLive.live_config .SCREEN_LIVE_RTSP_SERVER ls).isSome
  | .EVENT_TYPE_RTSP_PUSHER, ls =>
    (MainWindow.StartLive.live_config .SCREEN_LIVE_RTSP_PUSHER ls).isSome
  | .EVENT_TYPE_RTMP_PUSHER, ls =>
    (MainWindow.StartLive.live_config .SCREEN_LIVE_RTMP_PUSHER ls).isSome
  | .other _, _ => true

/-- Whether `encoder_settings` has the three entries `MainWindow::StartLive` reads, the two
numbers within the range of `int`. -/
def MainWindow.StartLive.encoder_settings_ok : List String → Bool
  | _ :: framerate :: bitrate :: _ => (atoi framerate).isSome && (atoi bitrate).isSome
  | _ => false

/-- Whether a request reads only entries that its settings vectors have. -/
def Request.well_formed : Request → Bool
  | .start event_type encoder_settings live_settings _ _ =>
    MainWindow.StartLive.encoder_settings_ok encoder_settings &&
      MainWindow.StartLive.live_settings_ok event_type live_settings
  | .stop _ => true

/-! ## Reading the record of calls -/

/-- The result of a `StartEncoder` call. -/
def Call.encoderStart : Call → Option Int
  | .StartEncoder _ ret => some ret
  | _ => none

/-- The results of the `StartEncoder` calls of a record, in order. -/
def encoderStarts (log : List Call) : List Int := log.filterMap Call.encoderStart

/-- The pair pushed by a `SetLiveState` call. -/
def Call.overlayPush : Call → Option (EventType × Bool)
  | .SetLiveState event_type state => some (event_type, state)
  | _ => none

/-- The pairs pushed to the overlay by the calls of a record, in order. -/
def overlayPushes (log : List Call) : List (EventType × Bool) := log.filterMap Call.overlayPush

/-- Session invariant of spec section 3: no target is Running while the encoder is not ready. -/
def World.invariant (w : World) : Prop :=
  w.encoder_ready = false → ∀ type : ScreenLiveType, w.running type = false

/-! ## Concrete states -/

/-- Collaborators at rest: no nvenc, encoder not ready, the three targets Stopped, nothing
recorded. -/
def World.idle : World :=
  { nvenc_supported := false, encoder_ready := false, rtsp_server := false,
    rtsp_pusher := false, rtmp_pusher := false, log := [] }

/-- A constructed `MainWindow` (overlay band of 100 pixels) whose window, renderer and overlay
exist, as after `Create()`; `avconfig_` is still the constructor value. -/
def MainWindow.fresh : MainWindow :=
  { MainWindow.new 100 with window_ := true, renderer_ := true, overlay_ := true }

/-- The encoder settings of the spec scenario: codec h264, 30 frames per second, 5000 kbps. -/
def scenario_encoder_settings : List String := ["h264", "30", "5000"]

/-- The RTSP-server settings of the spec scenario: 127.0.0.1, port 8554, suffix /live. -/
def scenario_live_settings : List String := ["127.0.0.1", "8554", "/live"]

/-- The candidate configuration of the spec scenario. -/
def scenario_avconfig : AVConfig := { bitrate_bps := 5000000, framerate := 30, codec := "h264" }

/-- The `LiveConfig` of the spec scenario. -/
def scenario_live_config : LiveConfig :=
  { ip := some "127.0.0.1", port := some 8554, suffix := some "/live",
    rtsp_url := none, rtmp_url := none }

/-- The window of the spec scenario once the first request has succeeded: `avconfig_` is the
scenario configuration. -/
def MainWindow.live : MainWindow := { MainWindow.fresh with avconfig_ := scenario_avconfig }

/-- The collaborators of the spec scenario once the first request has succeeded: encoder ready,
RTSP server Running (the record is started afresh). -/
def World.live : World := { World.idle with encoder_ready := true, rtsp_server := true }

/-- Whether a request is a `StartLive` that carries the encoder settings `es`. -/
def Request.carries (es : List String) : Request → Bool
  | .start _ encoder_settings _ _ _ => encoder_settings = es
  | .stop _ => false

/-- Two `StartLive` requests for the RTSP server with the settings of the spec scenario; the
encoder start fails during the first and succeeds during the second. -/
def retry_requests : List Request :=
  [Request.start .EVENT_TYPE_RTSP_SERVER scenario_encoder_settings scenario_live_settings
     (-1) true,
   Request.start .EVENT_TYPE_RTSP_SERVER scenario_encoder_settings scenario_live_settings
     0 true]

/-- The first two scenarios of the spec: RTSP server started, then RTMP pusher started with
the same encoder settings, every start succeeding. -/
def same_settings_requests : List Request :=
  [Request.start .EVENT_TYPE_RTSP_SERVER scenario_encoder_settings scenario_live_settings
     0 true,
   Request.start .EVENT_TYPE_RTMP_PUSHER scenario_encoder_settings
     ["rtmp://127.0.0.1/live/01"] 0 true]

/-- Where `same_settings_requests` leaves a fresh window and idle collaborators. -/
def same_settings_end : MainWindow × World :=
  (MainWindow.fresh.run World.idle same_settings_requests).getD (MainWindow.fresh, World.idle)

/-- The three scenarios of the spec with a failure, then a stop: RTSP server started, RTMP
pusher started with the same settings, RTSP pusher requested with 25 frames per second while the
encoder start fails, RTSP server stopped. -/
def restart_failure_requests : List Request :=
  [Request.start .EVENT_TYPE_RTSP_SERVER scenario_encoder_settings scenario_live_settings
     0 true,
   Request.start .EVENT_TYPE_RTMP_PUSHER scenario_encoder_settings
     ["rtmp://127.0.0.1/live/01"] 0 true,
   Request.start .EVENT_TYPE_RTSP_PUSHER ["h264", "25", "5000"]
     ["rtsp://127.0.0.1:554/test"] (-1) true,
   Request.stop .EVENT_TYPE_RTSP_SERVER]

/-- Where `restart_failure_requests` leaves a fresh window and idle collaborators. -/
def restart_failure_end : MainWindow × World :=
  (MainWindow.fresh.run World.idle restart_failure_requests).getD
    (MainWindow.fresh, World.idle)

/-! ## Reading the record of texture calls -/

/-- Whether a call destroys the texture, creates it, or copies pixels into it. -/
def Call.isTextureCall : Call → Bool
  | .SDL_DestroyTexture => true
  | .SDL_CreateTexture _ _ _ _ => true
  | .memcpy _ => true
  | _ => false

/-- The texture destroys, texture creations and pixel copies of a record, in order. -/
def textureCalls (log : List Call) : List Call := log.filter Call.isTextureCall

/-- The first frame of the last spec scenario: 1920 x 1080 on a fresh window, texture creation
and lock succeeding. -/
def first_frame : Bool × MainWindow × World :=
  MainWindow.fresh.UpdateARGB true 0 1920 1080 World.idle

/-- The window is then resized to 1280 x 820 (SDL offers an accelerated direct3d driver, the
renderer and the overlay are created again). -/
def resized : MainWindow × World :=
  (MainWindow.Resize 100 (1280, 820) [some { name := "direct3d", flags := 2 }] true true
    first_frame.2.1 first_frame.2.2).getD (MainWindow.fresh, World.idle)

/-- The next frame after the resize: 1280 x 720, texture creation and lock succeeding. -/
def frame_after_resize : Bool × MainWindow × World :=
  resized.1.UpdateARGB true 0 1280 720 resized.2

/-! ## Lemmas on the session controller -/

theorem reset_log (w : World) :
    (MainWindow.StartLive.reset w).log = w.log ++
      [Call.StopLive .SCREEN_LIVE_RTSP_SERVER, Call.StopLive .SCREEN_LIVE_RTSP_PUSHER,
       Call.StopLive .SCREEN_LIVE_RTMP_PUSHER,
       Call.SetLiveState .EVENT_TYPE_RTSP_SERVER false,
       Call.SetLiveState .EVENT_TYPE_RTSP_PUSHER false,
       Call.SetLiveState .EVENT_TYPE_RTMP_PUSHER false, Call.StopEncoder] := by
  simp [MainWindow.StartLive.reset, ScreenLive.StopLive, ScreenLive.StopEncoder,
    Overlay.SetLiveState, World.record, World.setRunning]

theorem reset_state (w : World) :
    (MainWindow.StartLive.reset w).encoder_ready = false ∧
    (MainWindow.StartLive.reset w).rtsp_server = false ∧
    (MainWindow.StartLive.reset w).rtsp_pusher = false ∧
    (MainWindow.StartLive.reset w).rtmp_pusher = false ∧
    (MainWindow.StartLive.reset w).nvenc_supported = w.nvenc_supported := by
  simp [MainWindow.StartLive.reset, ScreenLive.StopLive, ScreenLive.StopEncoder,
    Overlay.SetLiveState, World.record, World.setRunning]

theorem target_event (ret : Bool) (self : MainWindow) (type : ScreenLiveType)
    (live_settings : List String) (live_config : LiveConfig) (w : World)
    (hcfg : MainWindow.StartLive.live_config type live_settings = some live_config) :
    MainWindow.StartLive.target ret self type.event live_settings w =
      if w.encoder_ready then
        some (ret, self, (ScreenLive.StartLive ret type live_config
          (ScreenLive.IsEncoderInitialized w).2).2)
      else some (false, self, (ScreenLive.IsEncoderInitialized w).2) := by
  cases type <;>
    simp [MainWindow.StartLive.target, ScreenLiveType.event, hcfg, ScreenLive.IsEncoderInitialized,
      ScreenLive.StartLive] <;>
    cases w.encoder_ready <;> simp

theorem target_other (ret : Bool) (self : MainWindow) (n : Int) (live_settings : List String)
    (w : World) :
    MainWindow.StartLive.target ret self (.other n) live_settings w =
      some (false, self, (ScreenLive.IsEncoderInitialized w).2) := by
  simp [MainWindow.StartLive.target, ScreenLive.IsEncoderInitialized]

/-- What the tail of `StartLive` does when it returns: the members, the encoder state and the
nvenc capability are kept, the targets are kept unless the encoder is ready, and the calls it
adds are neither encoder starts nor overlay pushes. -/
theorem target_some (ret : Bool) (self : MainWindow) (event_type : EventType)
    (live_settings : List String) (w : World) (r : Bool) (self1 : MainWindow) (w1 : World)
    (h : MainWindow.StartLive.target ret self event_type live_settings w = some (r, self1, w1)) :
    self1 = self ∧ w1.encoder_ready = w.encoder_ready ∧
    w1.nvenc_supported = w.nvenc_supported ∧
    (w.encoder_ready = false → ∀ u, w1.running u = w.running u) ∧
    ∃ added, w1.log = w.log ++ added ∧ encoderStarts added = [] ∧ overlayPushes added = [] := by
  cases hw : w.encoder_ready
  · simp [MainWindow.StartLive.target, ScreenLive.IsEncoderInitialized, hw] at h
    obtain ⟨-, rfl, rfl⟩ := h
    refine ⟨rfl, ?_, rfl, fun _ _ => rfl, [Call.IsEncoderInitialized false], ?_, rfl, rfl⟩
    · simp [World.record, hw]
    · simp [World.record]
  · cases event_type with
    | other n =>
      simp [MainWindow.StartLive.target, ScreenLive.IsEncoderInitialized, hw] at h
      obtain ⟨-, rfl, rfl⟩ := h
      refine ⟨rfl, ?_, rfl, fun hf => by simp at hf, [Call.IsEncoderInitialized true], ?_,
        rfl, rfl⟩
      · simp [World.record, hw]
      · simp [World.record]
    | EVENT_TYPE_RTSP_SERVER =>
      cases hc : MainWindow.StartLive.live_config .SCREEN_LIVE_RTSP_SERVER live_settings with
      | none => simp [MainWindow.StartLive.target, ScreenLive.IsEncoderInitialized, hw, hc] at h
      | some cfg =>
        simp [MainWindow.StartLive.target, ScreenLive.IsEncoderInitialized, hw, hc,
          ScreenLive.StartLive] at h
        obtain ⟨rfl, rfl, rfl⟩ := h
        refine ⟨rfl, ?_, ?_, fun hf => by simp at hf,
          [Call.IsEncoderInitialized true, Call.StartLive .SCREEN_LIVE_RTSP_SERVER cfg ret],
          ?_, rfl, rfl⟩ <;> cases ret <;> simp [World.record, World.setRunning, hw]
    | EVENT_TYPE_RTSP_PUSHER =>
      cases hc : MainWindow.StartLive.live_config .SCREEN_LIVE_RTSP_PUSHER live_settings with
      | none => simp [MainWindow.StartLive.target, ScreenLive.IsEncoderInitialized, hw, hc] at h
      | some cfg =>
        simp [MainWindow.StartLive.target, ScreenLive.IsEncoderInitialized, hw, hc,
          ScreenLive.StartLive] at h
        obtain ⟨rfl, rfl, rfl⟩ := h
        refine ⟨rfl, ?_, ?_, fun hf => by simp at hf,
          [Call.IsEncoderInitialized true, Call.StartLive .SCREEN_LIVE_RTSP_PUSHER cfg ret],
          ?_, rfl, rfl⟩ <;> cases ret <;> simp [World.record, World.setRunning, hw]
    | EVENT_TYPE_RTMP_PUSHER =>
      cases hc : MainWindow.StartLive.live_config .SCREEN_LIVE_RTMP_PUSHER live_settings with
      | none => simp [MainWindow.StartLive.target, ScreenLive.IsEncoderInitialized, hw, hc] at h
      | some cfg =>
        simp [MainWindow.StartLive.target, ScreenLive.IsEncoderInitialized, hw, hc,
          ScreenLive.StartLive] at h
        obtain ⟨rfl, rfl, rfl⟩ := h
        refine ⟨rfl, ?_, ?_, fun hf => by simp at hf,
          [Call.IsEncoderInitialized true, Call.StartLive .SCREEN_LIVE_RTMP_PUSHER cfg ret],
          ?_, rfl, rfl⟩ <;> cases ret <;> simp [World.record, World.setRunning, hw]

/-- The tail of `StartLive` returns whenever `live_settings` has the entries it reads. -/
theorem target_total (ret : Bool) (self : MainWindow) (event_type : EventType)
    (live_settings : List String) (w : World)
    (hls : MainWindow.StartLive.live_settings_ok event_type live_settings = true) :
    ∃ r w1, MainWindow.StartLive.target ret self event_type live_settings w =
      some (r, self, w1) := by
  cases event_type with
  | other n => exact ⟨_, _, target_other ret self n live_settings w⟩
  | EVENT_TYPE_RTSP_SERVER =>
    obtain ⟨cfg, hc⟩ := Option.isSome_iff_exists.mp hls
    have := target_event ret self .SCREEN_LIVE_RTSP_SERVER live_settings cfg w hc
    cases hw : w.encoder_ready <;> simp [hw, ScreenLiveType.event] at this <;>
      exact ⟨_, _, this⟩
  | EVENT_TYPE_RTSP_PUSHER =>
    obtain ⟨cfg, hc⟩ := Option.isSome_iff_exists.mp hls
    have := target_event ret self .SCREEN_LIVE_RTSP_PUSHER live_settings cfg w hc
    cases hw : w.encoder_ready <;> simp [hw, ScreenLiveType.event] at this <;>
      exact ⟨_, _, this⟩
  | EVENT_TYPE_RTMP_PUSHER =>
    obtain ⟨cfg, hc⟩ := Option.isSome_iff_exists.mp hls
    have := target_event ret self .SCREEN_LIVE_RTMP_PUSHER live_settings cfg w hc
    cases hw : w.encoder_ready <;> simp [hw, ScreenLiveType.event] at this <;>
      exact ⟨_, _, this⟩

/-- `StartLive` on a request whose candidate differs from `avconfig_`, with an overlay. -/
theorem StartLive_changed (encoder_ret : Int) (live_ret : Bool) (self : MainWindow)
    (event_type : EventType) (encoder_settings live_settings : List String) (w : World)
    (avconfig : AVConfig)
    (hcand : MainWindow.StartLive.avconfig encoder_settings w = some avconfig)
    (hne : self.avconfig_ ≠ avconfig) (hov : self.overlay_ = true) :
    self.StartLive encoder_ret live_ret event_type encoder_settings live_settings w =
      if encoder_ret < 0 then
        some (false, self,
          (ScreenLive.StartEncoder encoder_ret avconfig (MainWindow.StartLive.reset w)).2)
      else
        MainWindow.StartLive.target live_ret { self with avconfig_ := avconfig } event_type
          live_settings
          (ScreenLive.StartEncoder encoder_ret avconfig (MainWindow.StartLive.reset w)).2 := by
  simp [MainWindow.StartLive, hcand, hne, hov, ScreenLive.StartEncoder]

/-- `StartLive` on a request whose candidate equals `avconfig_`. -/
theorem StartLive_same (encoder_ret : Int) (live_ret : Bool) (self : MainWindow)
    (event_type : EventType) (encoder_settings live_settings : List String) (w : World)
    (hcand : MainWindow.StartLive.avconfig encoder_settings w = some self.avconfig_) :
    self.StartLive encoder_ret live_ret event_type encoder_settings live_settings w =
      MainWindow.StartLive.target live_ret self event_type live_settings w := by
  simp [MainWindow.StartLive, hcand]

theorem StartEncoder_log (ret : Int) (config : AVConfig) (w : World) :
    (ScreenLive.StartEncoder ret config w).2.log = w.log ++ [Call.StartEncoder config ret] := by
  unfold ScreenLive.StartEncoder
  split <;> simp [World.record]

theorem StartEncoder_state (ret : Int) (config : AVConfig) (w : World) :
    (ScreenLive.StartEncoder ret config w).2.rtsp_server = w.rtsp_server ∧
    (ScreenLive.StartEncoder ret config w).2.rtsp_pusher = w.rtsp_pusher ∧
    (ScreenLive.StartEncoder ret config w).2.rtmp_pusher = w.rtmp_pusher ∧
    (ScreenLive.StartEncoder ret config w).2.nvenc_supported = w.nvenc_supported ∧
    (ScreenLive.StartEncoder ret config w).2.encoder_ready =
      (if ret < 0 then w.encoder_ready else true) := by
  unfold ScreenLive.StartEncoder
  split <;> simp [World.record]

/-- `StartLive` on a request whose candidate differs from `avconfig_`, when the encoder start
succeeds: the request returns, the candidate is adopted, and the calls are the eight of the
restart followed by calls that are neither encoder starts nor overlay pushes. -/
theorem StartLive_changed_ok (encoder_ret : Int) (live_ret : Bool) (self : MainWindow)
    (event_type : EventType) (encoder_settings live_settings : List String) (w : World)
    (avconfig : AVConfig)
    (hcand : MainWindow.StartLive.avconfig encoder_settings w = some avconfig)
    (hne : self.avconfig_ ≠ avconfig) (hov : self.overlay_ = true)
    (hls : MainWindow.StartLive.live_settings_ok event_type live_settings = true)
    (hok : 0 ≤ encoder_ret) :
    ∃ r w1 tail,
      self.StartLive encoder_ret live_ret event_type encoder_settings live_settings w =
        some (r, { self with avconfig_ := avconfig }, w1) ∧
      w1.log = w.log ++
        [Call.StopLive .SCREEN_LIVE_RTSP_SERVER, Call.StopLive .SCREEN_LIVE_RTSP_PUSHER,
         Call.StopLive .SCREEN_LIVE_RTMP_PUSHER,
         Call.SetLiveState .EVENT_TYPE_RTSP_SERVER false,
         Call.SetLiveState .EVENT_TYPE_RTSP_PUSHER false,
         Call.SetLiveState .EVENT_TYPE_RTMP_PUSHER false, Call.StopEncoder,
         Call.StartEncoder avconfig encoder_ret] ++ tail ∧
      encoderStarts tail = [] ∧ overlayPushes tail = [] ∧ w1.encoder_ready = true := by
  have hch := StartLive_changed encoder_ret live_ret self event_type encoder_settings
    live_settings w avconfig hcand hne hov
  have hneg : ¬ encoder_ret < 0 := not_lt.mpr hok
  obtain ⟨r, w1, hw1⟩ := target_total live_ret { self with avconfig_ := avconfig }
    event_type live_settings
    (ScreenLive.StartEncoder encoder_ret avconfig (MainWindow.StartLive.reset w)).2 hls
  obtain ⟨-, hrdy, -, -, added, hlog, hadd, hpush⟩ := target_some _ _ _ _ _ _ _ _ hw1
  refine ⟨r, w1, added, ?_, ?_, hadd, hpush, ?_⟩
  · rw [hch, if_neg hneg, hw1]
  · rw [hlog, StartEncoder_log, reset_log]; simp
  · rw [hrdy, (StartEncoder_state _ _ _).2.2.2.2, if_neg hneg]

/-- `StartLive` on a request whose candidate differs from `avconfig_`, when the encoder start
fails. -/
theorem StartLive_changed_fail (encoder_ret : Int) (live_ret : Bool) (self : MainWindow)
    (event_type : EventType) (encoder_settings live_settings : List String) (w : World)
    (avconfig : AVConfig)
    (hcand : MainWindow.StartLive.avconfig encoder_settings w = some avconfig)
    (hne : self.avconfig_ ≠ avconfig) (hov : self.overlay_ = true)
    (hfail : encoder_ret < 0) :
    ∃ w1,
      self.StartLive encoder_ret live_ret event_type encoder_settings live_settings w =
        some (false, self, w1) ∧
      w1.log = w.log ++
        [Call.StopLive .SCREEN_LIVE_RTSP_SERVER, Call.StopLive .SCREEN_LIVE_RTSP_PUSHER,
         Call.StopLive .SCREEN_LIVE_RTMP_PUSHER,
         Call.SetLiveState .EVENT_TYPE_RTSP_SERVER false,
         Call.SetLiveState .EVENT_TYPE_RTSP_PUSHER false,
         Call.SetLiveState .EVENT_TYPE_RTMP_PUSHER false, Call.StopEncoder,
         Call.StartEncoder avconfig encoder_ret] ∧
      w1.encoder_ready = false ∧
      ∀ type, w1.running type = false := by
  have hch := StartLive_changed encoder_ret live_ret self event_type encoder_settings
    live_settings w avconfig hcand hne hov
  have hst := reset_state w
  have hse := StartEncoder_state encoder_ret avconfig (MainWindow.StartLive.reset w)
  refine ⟨(ScreenLive.StartEncoder encoder_ret avconfig (MainWindow.StartLive.reset w)).2,
    by rw [hch, if_pos hfail], ?_, ?_, ?_⟩
  · rw [StartEncoder_log, reset_log]; simp
  · rw [hse.2.2.2.2, if_pos hfail]; exact hst.1
  · intro type
    cases type <;> simp [World.running, hst, hse]

/-- `StartLive` for one of the three targets on a request whose candidate differs from
`avconfig_`, when the encoder start succeeds: the exact result. -/
theorem StartLive_changed_target (encoder_ret : Int) (live_ret : Bool) (self : MainWindow)
    (type : ScreenLiveType) (encoder_settings live_settings : List String) (w : World)
    (avconfig : AVConfig) (live_config : LiveConfig)
    (hcand : MainWindow.StartLive.avconfig encoder_settings w = some avconfig)
    (hne : self.avconfig_ ≠ avconfig) (hov : self.overlay_ = true)
    (hcfg : MainWindow.StartLive.live_config type live_settings = some live_config)
    (hok : 0 ≤ encoder_ret) :
    ∃ w1,
      self.StartLive encoder_ret live_ret type.event encoder_settings live_settings w =
        some (live_ret, { self with avconfig_ := avconfig }, w1) ∧
      w1.log = w.log ++
        [Call.StopLive .SCREEN_LIVE_RTSP_SERVER, Call.StopLive .SCREEN_LIVE_RTSP_PUSHER,
         Call.StopLive .SCREEN_LIVE_RTMP_PUSHER,
         Call.SetLiveState .EVENT_TYPE_RTSP_SERVER false,
         Call.SetLiveState .EVENT_TYPE_RTSP_PUSHER false,
         Call.SetLiveState .EVENT_TYPE_RTMP_PUSHER false, Call.StopEncoder,
         Call.StartEncoder avconfig encoder_ret, Call.IsEncoderInitialized true,
         Call.StartLive type live_config live_ret] ∧
      w1.encoder_ready = true ∧ w1.running type = live_ret ∧
      ∀ u, u ≠ type → w1.running u = false := by
  have hch := StartLive_changed encoder_ret live_ret self type.event encoder_settings
    live_settings w avconfig hcand hne hov
  have hneg : ¬ encoder_ret < 0 := not_lt.mpr hok
  have hst := reset_state w
  have hse := StartEncoder_state encoder_ret avconfig (MainWindow.StartLive.reset w)
  rw [if_neg hneg] at hse
  have htar := target_event live_ret { self with avconfig_ := avconfig } type live_settings
    live_config (ScreenLive.StartEncoder encoder_ret avconfig (MainWindow.StartLive.reset w)).2
    hcfg
  rw [if_pos hse.2.2.2.2] at htar
  refine ⟨_, by rw [hch, if_neg hneg, htar], ?_, ?_, ?_, ?_⟩
  · cases live_ret <;> cases type <;>
      simp [ScreenLive.StartLive, ScreenLive.IsEncoderInitialized, World.record,
        World.setRunning, StartEncoder_log, reset_log, hse]
  · cases live_ret <;> cases type <;>
      simp [ScreenLive.StartLive, ScreenLive.IsEncoderInitialized, World.record,
        World.setRunning, hse]
  · cases live_ret <;> cases type <;>
      simp [ScreenLive.StartLive, ScreenLive.IsEncoderInitialized, World.record,
        World.setRunning, World.running, hse, hst]
  · intro u hu
    cases live_ret <;> cases type <;> cases u <;>
      simp_all [ScreenLive.StartLive, ScreenLive.IsEncoderInitialized, World.record,
        World.setRunning, World.running]

theorem avconfig_congr (encoder_settings : List String) (w w1 : World)
    (h : w1.nvenc_supported = w.nvenc_supported) :
    MainWindow.StartLive.avconfig encoder_settings w1 =
      MainWindow.StartLive.avconfig encoder_settings w := by
  unfold MainWindow.StartLive.avconfig nvenc_info.is_supported
  rw [h]

/-- What any `StartLive` that returns has done: the nvenc capability is kept, the session
invariant is kept, and the request either found its candidate stored and started no encoder,
or started the encoder once, adopting the candidate exactly if that start succeeded. -/
theorem StartLive_some (encoder_ret : Int) (live_ret : Bool) (self : MainWindow)
    (event_type : EventType) (encoder_settings live_settings : List String) (w : World)
    (avconfig : AVConfig) (r : Bool) (self1 : MainWindow) (w1 : World)
    (hcand : MainWindow.StartLive.avconfig encoder_settings w = some avconfig)
    (h : self.StartLive encoder_ret live_ret event_type encoder_settings live_settings w =
      some (r, self1, w1)) :
    w1.nvenc_supported = w.nvenc_supported ∧
    (w.invariant → w1.invariant) ∧
    ∃ added, w1.log = w.log ++ added ∧
      ((self.avconfig_ = avconfig ∧ self1 = self ∧ encoderStarts added = []) ∨
       (self.avconfig_ ≠ avconfig ∧ encoderStarts added = [encoder_ret] ∧
        (encoder_ret < 0 → self1 = self) ∧ (0 ≤ encoder_ret → self1.avconfig_ = avconfig))) := by
  by_cases hne : self.avconfig_ = avconfig
  · rw [StartLive_same encoder_ret live_ret self event_type encoder_settings live_settings w
      (by rw [hcand, hne])] at h
    obtain ⟨hself, hrdy, hnv, hrun, added, hlog, hadd, -⟩ := target_some _ _ _ _ _ _ _ _ h
    refine ⟨hnv, ?_, added, hlog, Or.inl ⟨hne, hself, hadd⟩⟩
    intro hinv hr1 type
    rw [hrdy] at hr1
    rw [hrun hr1 type]
    exact hinv hr1 type
  · have hov : self.overlay_ = true := by
      by_contra hov
      simp [MainWindow.StartLive, hcand, hne, hov] at h
    have hst := reset_state w
    have hse := StartEncoder_state encoder_ret avconfig (MainWindow.StartLive.reset w)
    by_cases hneg : encoder_ret < 0
    · obtain ⟨w2, hrun, hlog, hrdy, hstop⟩ := StartLive_changed_fail encoder_ret live_ret self
        event_type encoder_settings live_settings w avconfig hcand hne hov hneg
      rw [hrun] at h
      simp only [Option.some.injEq, Prod.mk.injEq] at h
      obtain ⟨-, rfl, rfl⟩ := h
      refine ⟨?_, fun _ _ => hstop, _, hlog, Or.inr ⟨hne, rfl, fun _ => rfl,
        fun h0 => absurd hneg (not_lt.mpr h0)⟩⟩
      have hch := StartLive_changed encoder_ret live_ret self event_type encoder_settings
        live_settings w avconfig hcand hne hov
      rw [if_pos hneg, hrun] at hch
      simp only [Option.some.injEq, Prod.mk.injEq, true_and] at hch
      rw [hch, hse.2.2.2.1, hst.2.2.2.2]
    · rw [StartLive_changed encoder_ret live_ret self event_type encoder_settings
        live_settings w avconfig hcand hne hov, if_neg hneg] at h
      obtain ⟨hself, hrdy, hnv, -, added, hlog, hadd, -⟩ := target_some _ _ _ _ _ _ _ _ h
      refine ⟨by rw [hnv, hse.2.2.2.1, hst.2.2.2.2], ?_,
        [Call.StopLive .SCREEN_LIVE_RTSP_SERVER, Call.StopLive .SCREEN_LIVE_RTSP_PUSHER,
         Call.StopLive .SCREEN_LIVE_RTMP_PUSHER,
         Call.SetLiveState .EVENT_TYPE_RTSP_SERVER false,
         Call.SetLiveState .EVENT_TYPE_RTSP_PUSHER false,
         Call.SetLiveState .EVENT_TYPE_RTMP_PUSHER false, Call.StopEncoder,
         Call.StartEncoder avconfig encoder_ret] ++ added, ?_, Or.inr ⟨hne, ?_, ?_, ?_⟩⟩
      · intro _ hr1
        rw [hrdy, hse.2.2.2.2, if_neg hneg] at hr1
        cases hr1
      · rw [hlog, StartEncoder_log, reset_log]; simp
      · unfold encoderStarts at hadd ⊢
        rw [List.filterMap_append, hadd]
        simp [Call.encoderStart]
      · exact fun h0 => absurd h0 hneg
      · intro _
        rw [hself]

theorem StopLive_invariant (self : MainWindow) (event_type : EventType) (w : World)
    (hinv : w.invariant) : (self.StopLive event_type w).2.invariant := by
  intro hr type
  have hw : w.encoder_ready = false := by
    cases event_type <;>
      simpa [MainWindow.StopLive, ScreenLive.StopLive, World.record, World.setRunning] using hr
  have h1 := hinv hw .SCREEN_LIVE_RTSP_SERVER
  have h2 := hinv hw .SCREEN_LIVE_RTSP_PUSHER
  have h3 := hinv hw .SCREEN_LIVE_RTMP_PUSHER
  cases event_type <;> cases type <;>
    simp_all [MainWindow.StopLive, ScreenLive.StopLive, World.record, World.setRunning,
      World.running]

theorem handle_invariant (self : MainWindow) (w : World) (q : Request) (self1 : MainWindow)
    (w1 : World) (h : self.handle w q = some (self1, w1)) (hinv : w.invariant) :
    w1.invariant := by
  cases q with
  | stop event_type =>
    simp only [MainWindow.handle, Option.some.injEq] at h
    have hstop := StopLive_invariant self event_type w hinv
    rw [h] at hstop
    exact hstop
  | start event_type encoder_settings live_settings encoder_ret live_ret =>
    simp only [MainWindow.handle] at h
    cases hrun : self.StartLive encoder_ret live_ret event_type encoder_settings
        live_settings w with
    | none => rw [hrun] at h; cases h
    | some res =>
      obtain ⟨r, self2, w2⟩ := res
      rw [hrun] at h
      simp only [Option.some.injEq, Prod.mk.injEq] at h
      obtain ⟨rfl, rfl⟩ := h
      cases hcand : MainWindow.StartLive.avconfig encoder_settings w with
      | none => simp [MainWindow.StartLive, hcand] at hrun
      | some avconfig =>
        exact (StartLive_some encoder_ret live_ret self event_type encoder_settings
          live_settings w avconfig r _ _ hcand hrun).2.1 hinv

theorem run_invariant (reqs : List Request) (self : MainWindow) (w : World)
    (self1 : MainWindow) (w1 : World) (h : self.run w reqs = some (self1, w1))
    (hinv : w.invariant) : w1.invariant := by
  induction reqs generalizing self w with
  | nil =>
    simp only [MainWindow.run, Option.some.injEq, Prod.mk.injEq] at h
    rw [← h.2]
    exact hinv
  | cons q rest ih =>
    simp only [MainWindow.run] at h
    cases hq : self.handle w q with
    | none => rw [hq] at h; cases h
    | some res =>
      obtain ⟨self2, w2⟩ := res
      rw [hq] at h
      exact ih self2 w2 h (handle_invariant self w q self2 w2 hq hinv)

/-- A sequence of `StartLive` requests that all build the candidate `avconfig`: no encoder
start at all once `avconfig_` is that candidate, and every encoder start but the last
failed. -/
theorem run_same_settings (es : List String) (avconfig : AVConfig) (reqs : List Request)
    (self : MainWindow) (w : World) (self1 : MainWindow) (w1 : World)
    (hall : ∀ q ∈ reqs, Request.carries es q = true)
    (hcand : MainWindow.StartLive.avconfig es w = some avconfig)
    (h : self.run w reqs = some (self1, w1)) :
    ∃ added, w1.log = w.log ++ added ∧
      (self.avconfig_ = avconfig → encoderStarts added = []) ∧
      ∀ x ∈ (encoderStarts added).dropLast, x < 0 := by
  induction reqs generalizing self w with
  | nil =>
    simp only [MainWindow.run, Option.some.injEq, Prod.mk.injEq] at h
    exact ⟨[], by rw [← h.2]; simp, fun _ => rfl, by simp [encoderStarts]⟩
  | cons q rest ih =>
    have hq := hall q (List.mem_cons_self q rest)
    cases q with
    | stop event_type => simp [Request.carries] at hq
    | start event_type encoder_settings live_settings encoder_ret live_ret =>
      simp only [Request.carries, decide_eq_true_eq] at hq
      subst hq
      simp only [MainWindow.run, MainWindow.handle] at h
      cases hrun : self.StartLive encoder_ret live_ret event_type encoder_settings
          live_settings w with
      | none => rw [hrun] at h; cases h
      | some res =>
        obtain ⟨r, self2, w2⟩ := res
        rw [hrun] at h
        simp only at h
        obtain ⟨hnv, -, added, hlog, hcase⟩ := StartLive_some encoder_ret live_ret self
          event_type encoder_settings live_settings w avconfig r self2 w2 hcand hrun
        obtain ⟨tail, htlog, htsame, htlast⟩ := ih self2 w2
          (fun q hq => hall q (List.mem_cons_of_mem _ hq))
          (by rw [avconfig_congr encoder_settings w w2 hnv, hcand]) h
        refine ⟨added ++ tail, by rw [htlog, hlog, List.append_assoc], ?_, ?_⟩
        · intro hself
          rcases hcase with ⟨-, hself2, hadd⟩ | ⟨hne, -⟩
          · unfold encoderStarts at hadd ⊢
            rw [List.filterMap_append, hadd]
            exact htsame (by rw [hself2, hself])
          · exact absurd hself hne
        · rcases hcase with ⟨-, -, hadd⟩ | ⟨-, hadd, hfail, hok⟩
          · have : encoderStarts (added ++ tail) = encoderStarts tail := by
              unfold encoderStarts at hadd ⊢
              rw [List.filterMap_append, hadd]; rfl
            rw [this]
            exact htlast
          · have hsplit : encoderStarts (added ++ tail) = encoder_ret :: encoderStarts tail := by
              unfold encoderStarts at hadd ⊢
              rw [List.filterMap_append, hadd]; rfl
            rw [hsplit]
            by_cases hneg : encoder_ret < 0
            · intro x hx
              cases htl : encoderStarts tail with
              | nil => rw [htl] at hx; simp at hx
              | cons y ys =>
                rw [htl, List.dropLast_cons₂] at hx
                rcases List.mem_cons.mp hx with rfl | hx
                · exact hneg
                · exact htlast x (by rw [htl]; exact hx)
            · rw [htsame (hok (not_lt.mp hneg))]
              simp

/-! ## The session controller returns on well-formed requests -/

theorem avconfig_total (encoder_settings : List String) (w : World)
    (hes : MainWindow.StartLive.encoder_settings_ok encoder_settings = true) :
    ∃ avconfig, MainWindow.StartLive.avconfig encoder_settings w = some avconfig := by
  match encoder_settings, hes with
  | codec :: framerate :: bitrate :: rest, hes =>
    simp only [MainWindow.StartLive.encoder_settings_ok, Bool.and_eq_true] at hes
    obtain ⟨f, hf⟩ := Option.isSome_iff_exists.mp hes.1
    obtain ⟨b, hb⟩ := Option.isSome_iff_exists.mp hes.2
    simp only [MainWindow.StartLive.avconfig, hf, hb]
    exact ⟨_, rfl⟩

/-- With an overlay, `StartLive` returns on every well-formed request, and the overlay is
kept. -/
theorem StartLive_total (encoder_ret : Int) (live_ret : Bool) (self : MainWindow)
    (event_type : EventType) (encoder_settings live_settings : List String) (w : World)
    (hov : self.overlay_ = true)
    (hes : MainWindow.StartLive.encoder_settings_ok encoder_settings = true)
    (hls : MainWindow.StartLive.live_settings_ok event_type live_settings = true) :
    ∃ r self1 w1,
      self.StartLive encoder_ret live_ret event_type encoder_settings live_settings w =
        some (r, self1, w1) ∧ self1.overlay_ = true := by
  obtain ⟨avconfig, hcand⟩ := avconfig_total encoder_settings w hes
  by_cases hne : self.avconfig_ = avconfig
  · obtain ⟨r, w1, hw1⟩ := target_total live_ret self event_type live_settings w hls
    exact ⟨r, self, w1, by rw [StartLive_same encoder_ret live_ret self event_type
      encoder_settings live_settings w (by rw [hcand, hne]), hw1], hov⟩
  · by_cases hneg : encoder_ret < 0
    · obtain ⟨w1, hrun, -⟩ := StartLive_changed_fail encoder_ret live_ret self event_type
        encoder_settings live_settings w avconfig hcand hne hov hneg
      exact ⟨false, self, w1, hrun, hov⟩
    · obtain ⟨r, w1, tail, hrun, -⟩ := StartLive_changed_ok encoder_ret live_ret self
        event_type encoder_settings live_settings w avconfig hcand hne hov hls
        (not_lt.mp hneg)
      exact ⟨r, _, w1, hrun, hov⟩

/-- With an overlay, a sequence of well-formed requests is handled to its end. -/
theorem run_total (reqs : List Request) (self : MainWindow) (w : World)
    (hov : self.overlay_ = true) (hwf : ∀ q ∈ reqs, Request.well_formed q = true) :
    ∃ self1 w1, self.run w reqs = some (self1, w1) := by
  induction reqs generalizing self w with
  | nil => exact ⟨self, w, rfl⟩
  | cons q rest ih =>
    have hq := hwf q (List.mem_cons_self q rest)
    have hrest : ∀ q ∈ rest, Request.well_formed q = true :=
      fun q hq => hwf q (List.mem_cons_of_mem _ hq)
    cases q with
    | stop event_type =>
      obtain ⟨self1, w1, h⟩ := ih (self.StopLive event_type w).1 (self.StopLive event_type w).2
        (by cases event_type <;> exact hov) hrest
      exact ⟨self1, w1, by simpa only [MainWindow.run, MainWindow.handle] using h⟩
    | start event_type encoder_settings live_settings encoder_ret live_ret =>
      simp only [Request.well_formed, Bool.and_eq_true] at hq
      obtain ⟨r, self2, w2, hrun, hov2⟩ := StartLive_total encoder_ret live_ret self
        event_type encoder_settings live_settings w hov hq.1 hq.2
      obtain ⟨self1, w1, h⟩ := ih self2 w2 hov2 hrest
      exact ⟨self1, w1, by simp only [MainWindow.run, MainWindow.handle, hrun]; exact h⟩

/-! ## The claims on the session controller -/

/-- C1: a `StartLive` request whose candidate configuration differs from `avconfig_` first
stops the RTSP server, the RTSP pusher and the RTMP pusher, then (after the three overlay
updates) stops the encoder, and only then calls `StartEncoder` with the candidate: the
collaborators `StartEncoder` is called on are `reset w`, in which all three targets are
Stopped, and the record of the whole request starts with these eight calls. -/
theorem C1_stops_precede_encoder_start (encoder_ret : Int) (live_ret : Bool)
    (self : MainWindow) (event_type : EventType) (encoder_settings live_settings : List String)
    (w : World) (avconfig : AVConfig)
    (hcand : MainWindow.StartLive.avconfig encoder_settings w = some avconfig)
    (hne : self.avconfig_ ≠ avconfig) (hov : self.overlay_ = true)
    (hls : MainWindow.StartLive.live_settings_ok event_type live_settings = true) :
    (MainWindow.StartLive.reset w).log = w.log ++
      [Call.StopLive .SCREEN_LIVE_RTSP_SERVER, Call.StopLive .SCREEN_LIVE_RTSP_PUSHER,
       Call.StopLive .SCREEN_LIVE_RTMP_PUSHER,
       Call.SetLiveState .EVENT_TYPE_RTSP_SERVER false,
       Call.SetLiveState .EVENT_TYPE_RTSP_PUSHER false,
       Call.SetLiveState .EVENT_TYPE_RTMP_PUSHER false, Call.StopEncoder] ∧
    (∀ type, (MainWindow.StartLive.reset w).running type = false) ∧
    self.StartLive encoder_ret live_ret event_type encoder_settings live_settings w =
      (if encoder_ret < 0 then
        some (false, self,
          (ScreenLive.StartEncoder encoder_ret avconfig (MainWindow.StartLive.reset w)).2)
      else
        MainWindow.StartLive.target live_ret { self with avconfig_ := avconfig } event_type
          live_settings
          (ScreenLive.StartEncoder encoder_ret avconfig (MainWindow.StartLive.reset w)).2) ∧
    ∃ r self1 w1 rest,
      self.StartLive encoder_ret live_ret event_type encoder_settings live_settings w =
        some (r, self1, w1) ∧
      w1.log = w.log ++
        [Call.StopLive .SCREEN_LIVE_RTSP_SERVER, Call.StopLive .SCREEN_LIVE_RTSP_PUSHER,
         Call.StopLive .SCREEN_LIVE_RTMP_PUSHER,
         Call.SetLiveState .EVENT_TYPE_RTSP_SERVER false,
         Call.SetLiveState .EVENT_TYPE_RTSP_PUSHER false,
         Call.SetLiveState .EVENT_TYPE_RTMP_PUSHER false, Call.StopEncoder,
         Call.StartEncoder avconfig encoder_ret] ++ rest ∧
      encoderStarts rest = [] := by
  have hch := StartLive_changed encoder_ret live_ret self event_type encoder_settings
    live_settings w avconfig hcand hne hov
  have hst := reset_state w
  refine ⟨reset_log w, ?_, hch, ?_⟩
  · intro type
    cases type <;> simp [World.running, hst]
  · by_cases hneg : encoder_ret < 0
    · obtain ⟨w1, hrun, hlog, -, -⟩ := StartLive_changed_fail encoder_ret live_ret self
        event_type encoder_settings live_settings w avconfig hcand hne hov hneg
      exact ⟨false, self, w1, [], hrun, by rw [hlog]; simp, rfl⟩
    · obtain ⟨r, w1, tail, hrun, hlog, htail, -, -⟩ := StartLive_changed_ok encoder_ret
        live_ret self event_type encoder_settings live_settings w avconfig hcand hne hov hls
        (not_lt.mp hneg)
      exact ⟨r, { self with avconfig_ := avconfig }, w1, tail, hrun, hlog, htail⟩

/-- Witness of C1: the spec scenario on a fresh window, the encoder start succeeding. -/
theorem C1_stops_precede_encoder_start_witness :
    MainWindow.StartLive.avconfig scenario_encoder_settings World.idle =
      some scenario_avconfig ∧
    MainWindow.fresh.avconfig_ ≠ scenario_avconfig ∧
    MainWindow.fresh.overlay_ = true ∧
    MainWindow.StartLive.live_settings_ok .EVENT_TYPE_RTSP_SERVER scenario_live_settings
      = true ∧
    ∃ r self1 w1 rest,
      MainWindow.fresh.StartLive 0 true .EVENT_TYPE_RTSP_SERVER scenario_encoder_settings
        scenario_live_settings World.idle = some (r, self1, w1) ∧
      w1.log = World.idle.log ++
        [Call.StopLive .SCREEN_LIVE_RTSP_SERVER, Call.StopLive .SCREEN_LIVE_RTSP_PUSHER,
         Call.StopLive .SCREEN_LIVE_RTMP_PUSHER,
         Call.SetLiveState .EVENT_TYPE_RTSP_SERVER false,
         Call.SetLiveState .EVENT_TYPE_RTSP_PUSHER false,
         Call.SetLiveState .EVENT_TYPE_RTMP_PUSHER false, Call.StopEncoder,
         Call.StartEncoder scenario_avconfig 0] ++ rest ∧
      encoderStarts rest = [] :=
  ⟨by decide, by decide, by decide, by decide,
    (C1_stops_precede_encoder_start 0 true MainWindow.fresh .EVENT_TYPE_RTSP_SERVER
      scenario_encoder_settings scenario_live_settings World.idle scenario_avconfig
      (by decide) (by decide) (by decide) (by decide)).2.2.2⟩

/-- C2, as stated, fails: two `StartLive` requests with identical encoder settings, the encoder
start failing during the first one, call `StartEncoder` twice (results -1 and 0): a failed
start leaves `avconfig_` as it was, so the next request is again a configuration change. -/
theorem C2_failed_encoder_start_is_retried :
    (∀ q ∈ retry_requests, Request.carries scenario_encoder_settings q = true) ∧
    (MainWindow.fresh.run World.idle retry_requests).map (fun x => encoderStarts x.2.log) =
      some [-1, 0] := by
  decide

/-- C2, amended: over a sequence of `StartLive` requests that all carry the same encoder
settings (any targets, any target settings, any results of the services), every `StartEncoder`
call but the last one failed: at most one call succeeds and none is issued after it. So when
no encoder start fails, `StartEncoder` is called at most once over the whole sequence. -/
theorem C2_no_encoder_start_after_a_success (es : List String) (reqs : List Request)
    (self : MainWindow) (w : World) (self1 : MainWindow) (w1 : World)
    (hall : ∀ q ∈ reqs, Request.carries es q = true)
    (hrun : self.run w reqs = some (self1, w1)) :
    ∃ added, w1.log = w.log ++ added ∧
      (∀ x ∈ (encoderStarts added).dropLast, x < 0) ∧
      ((∀ x ∈ encoderStarts added, 0 ≤ x) → (encoderStarts added).length ≤ 1) := by
  have key : ∃ added, w1.log = w.log ++ added ∧
      ∀ x ∈ (encoderStarts added).dropLast, x < 0 := by
    cases hcand : MainWindow.StartLive.avconfig es w with
    | some avconfig =>
      obtain ⟨added, hlog, -, hlast⟩ :=
        run_same_settings es avconfig reqs self w self1 w1 hall hcand hrun
      exact ⟨added, hlog, hlast⟩
    | none =>
      cases reqs with
      | nil =>
        simp only [MainWindow.run, Option.some.injEq, Prod.mk.injEq] at hrun
        exact ⟨[], by rw [← hrun.2]; simp, by simp [encoderStarts]⟩
      | cons q rest =>
        have hq := hall q (List.mem_cons_self q rest)
        cases q with
        | stop event_type => simp [Request.carries] at hq
        | start event_type encoder_settings live_settings encoder_ret live_ret =>
          simp only [Request.carries, decide_eq_true_eq] at hq
          subst hq
          simp [MainWindow.run, MainWindow.handle, MainWindow.StartLive, hcand] at hrun
  obtain ⟨added, hlog, hlast⟩ := key
  refine ⟨added, hlog, hlast, fun hpos => ?_⟩
  cases hl : encoderStarts added with
  | nil => simp
  | cons a t =>
    cases t with
    | nil => simp
    | cons b t =>
      rw [hl] at hlast hpos
      have h1 := hlast a (by simp [List.dropLast])
      have h2 := hpos a (by simp)
      omega

/-- Witness of C2: the first two scenarios of the spec, every start succeeding: one
`StartEncoder` call. -/
theorem C2_no_encoder_start_after_a_success_witness :
    (∀ q ∈ same_settings_requests, Request.carries scenario_encoder_settings q = true) ∧
    MainWindow.fresh.run World.idle same_settings_requests = some same_settings_end ∧
    encoderStarts same_settings_end.2.log = [0] ∧
    ∃ added, same_settings_end.2.log = World.idle.log ++ added ∧
      (∀ x ∈ (encoderStarts added).dropLast, x < 0) ∧
      ((∀ x ∈ encoderStarts added, 0 ≤ x) → (encoderStarts added).length ≤ 1) :=
  ⟨by decide, by decide, by decide,
    C2_no_encoder_start_after_a_success scenario_encoder_settings same_settings_requests
      MainWindow.fresh World.idle same_settings_end.1 same_settings_end.2 (by decide)
      (by decide)⟩

/-- C3: from collaborators whose three targets are Stopped (so from the initial state, where
in addition the encoder is not ready), every state that a sequence of `StartLive` and
`StopLive` requests reaches satisfies the session invariant: while the encoder is not ready
no target is Running. -/
theorem C3_no_target_runs_without_encoder (self : MainWindow) (w : World)
    (reqs : List Request) (self1 : MainWindow) (w1 : World)
    (hstopped : ∀ type, w.running type = false)
    (hrun : self.run w reqs = some (self1, w1)) :
    w1.encoder_ready = false → ∀ type, w1.running type = false :=
  run_invariant reqs self w self1 w1 hrun (fun _ => hstopped)

/-- Witness of C3: two targets are started, then a request with another frame rate hits an
encoder start failure, then the RTSP server is stopped: the encoder is not ready at the end and
the three targets are Stopped. -/
theorem C3_no_target_runs_without_encoder_witness :
    World.idle.encoder_ready = false ∧ (∀ type, World.idle.running type = false) ∧
    MainWindow.fresh.run World.idle restart_failure_requests = some restart_failure_end ∧
    restart_failure_end.2.encoder_ready = false ∧
    ∀ type, restart_failure_end.2.running type = false :=
  ⟨by decide, fun type => by cases type <;> rfl, by decide, by decide,
    C3_no_target_runs_without_encoder MainWindow.fresh World.idle restart_failure_requests
      restart_failure_end.1 restart_failure_end.2
      (fun type => by cases type <;> rfl) (by decide) (by decide)⟩

/-- C4, as stated, fails: on a fresh window the request with encoder settings [empty codec, 25,
4000] builds the very configuration the constructor stored, so it is no configuration change.
With services that would succeed, `StartLive` issues no `StartEncoder`, asks
`IsEncoderInitialized`, and returns false with the RTSP server still Stopped. -/
theorem C4_constructor_settings_are_no_change :
    MainWindow.StartLive.avconfig ["", "25", "4000"] World.idle =
      some (MainWindow.new 100).avconfig_ ∧
    MainWindow.fresh.StartLive 0 true .EVENT_TYPE_RTSP_SERVER ["", "25", "4000"]
        scenario_live_settings World.idle =
      some (false, MainWindow.fresh,
        { World.idle with log := [Call.IsEncoderInitialized false] }) ∧
    encoderStarts [Call.IsEncoderInitialized false] = [] := by
  decide

/-- C4, amended: on a window whose `avconfig_` is still the constructor value (codec empty, 25
frames per second, 4000000 bits per second), a `StartLive` request for one of the three
targets whose candidate configuration differs from that value calls `StartEncoder` exactly
once; when that start succeeds the request returns the result of the target start, adopts the
candidate, leaves the encoder ready, and the requested target is Running exactly if its start
succeeded while the other two are Stopped. A request whose candidate equals the constructor
value is no configuration change: while no encoder has been started it issues the
`IsEncoderInitialized` query only (no `StartEncoder`, no target start), returns false and
leaves every member and every service state as it was. -/
theorem C4_first_request_starts_encoder (kOverlayHeight : Int) (encoder_ret : Int)
    (live_ret : Bool) (self : MainWindow) (type : ScreenLiveType)
    (encoder_settings live_settings : List String) (w : World) (avconfig : AVConfig)
    (hfresh : self.avconfig_ = (MainWindow.new kOverlayHeight).avconfig_)
    (hov : self.overlay_ = true)
    (hcand : MainWindow.StartLive.avconfig encoder_settings w = some avconfig) :
    (avconfig ≠ (MainWindow.new kOverlayHeight).avconfig_ →
      ∀ live_config, MainWindow.StartLive.live_config type live_settings = some live_config →
      ∃ r self1 w1 added,
        self.StartLive encoder_ret live_ret type.event encoder_settings live_settings w =
          some (r, self1, w1) ∧
        w1.log = w.log ++ added ∧ encoderStarts added = [encoder_ret] ∧
        (0 ≤ encoder_ret →
          r = live_ret ∧ self1 = { self with avconfig_ := avconfig } ∧
          added =
            [Call.StopLive .SCREEN_LIVE_RTSP_SERVER, Call.StopLive .SCREEN_LIVE_RTSP_PUSHER,
             Call.StopLive .SCREEN_LIVE_RTMP_PUSHER,
             Call.SetLiveState .EVENT_TYPE_RTSP_SERVER false,
             Call.SetLiveState .EVENT_TYPE_RTSP_PUSHER false,
             Call.SetLiveState .EVENT_TYPE_RTMP_PUSHER false, Call.StopEncoder,
             Call.StartEncoder avconfig encoder_ret, Call.IsEncoderInitialized true,
             Call.StartLive type live_config live_ret] ∧
          w1.encoder_ready = true ∧ w1.running type = live_ret ∧
          ∀ u, u ≠ type → w1.running u = false)) ∧
    (avconfig = (MainWindow.new kOverlayHeight).avconfig_ → w.encoder_ready = false →
      self.StartLive encoder_ret live_ret type.event encoder_settings live_settings w =
        some (false, self, { w with log := w.log ++ [Call.IsEncoderInitialized false] }) ∧
      encoderStarts [Call.IsEncoderInitialized false] = []) := by
  constructor
  · intro hne live_config hcfg
    have hne1 : self.avconfig_ ≠ avconfig := by
      rw [hfresh]; exact fun h => hne h.symm
    by_cases hneg : encoder_ret < 0
    · obtain ⟨w1, hrun, hlog, -, -⟩ := StartLive_changed_fail encoder_ret live_ret self
        type.event encoder_settings live_settings w avconfig hcand hne1 hov hneg
      exact ⟨false, self, w1, _, hrun, hlog, rfl, fun h => absurd hneg (not_lt.mpr h)⟩
    · obtain ⟨w1, hrun, hlog, hrdy, htype, hoth⟩ := StartLive_changed_target encoder_ret
        live_ret self type encoder_settings live_settings w avconfig live_config hcand hne1
        hov hcfg (not_lt.mp hneg)
      exact ⟨live_ret, _, w1, _, hrun, hlog, rfl,
        fun _ => ⟨rfl, rfl, rfl, hrdy, htype, hoth⟩⟩
  · intro heq hready
    refine ⟨?_, rfl⟩
    have hsame : self.avconfig_ = avconfig := by rw [heq, hfresh]
    simp [MainWindow.StartLive, MainWindow.StartLive.target, ScreenLive.IsEncoderInitialized,
      World.record, hcand, hsame, hready]

/-- Witness of C4: the spec scenario (codec h264, 30 frames per second, 5000 kbps, RTSP
server at 127.0.0.1:8554/live) on a fresh window with both starts succeeding: the request
returns true, the encoder was started once, the RTSP server is Running and the two pushers are
Stopped. -/
theorem C4_first_request_starts_encoder_witness :
    MainWindow.fresh.avconfig_ = (MainWindow.new 100).avconfig_ ∧
    MainWindow.fresh.overlay_ = true ∧
    MainWindow.StartLive.avconfig scenario_encoder_settings World.idle =
      some scenario_avconfig ∧
    scenario_avconfig ≠ (MainWindow.new 100).avconfig_ ∧
    MainWindow.StartLive.live_config .SCREEN_LIVE_RTSP_SERVER scenario_live_settings =
      some scenario_live_config ∧
    ∃ w1 added,
      MainWindow.fresh.StartLive 0 true ScreenLiveType.SCREEN_LIVE_RTSP_SERVER.event
        scenario_encoder_settings scenario_live_settings World.idle =
        some (true, { MainWindow.fresh with avconfig_ := scenario_avconfig }, w1) ∧
      w1.log = World.idle.log ++ added ∧ encoderStarts added = [0] ∧
      w1.running .SCREEN_LIVE_RTSP_SERVER = true ∧
      w1.running .SCREEN_LIVE_RTSP_PUSHER = false ∧
      w1.running .SCREEN_LIVE_RTMP_PUSHER = false :=
  ⟨by decide, by decide, by decide, by decide, by decide,
    ((C4_first_request_starts_encoder 100 0 true MainWindow.fresh .SCREEN_LIVE_RTSP_SERVER
      scenario_encoder_settings scenario_live_settings World.idle scenario_avconfig
      (by decide) (by decide) (by decide)).1 (by decide) scenario_live_config
      (by decide)).elim
      fun r h => h.elim fun self1 h => h.elim fun w1 h => h.elim fun added h =>
        ⟨w1, added,
          by rw [h.1, (h.2.2.2 (by decide)).1, (h.2.2.2 (by decide)).2.1],
          h.2.1, h.2.2.1, (h.2.2.2 (by decide)).2.2.2.2.1,
          (h.2.2.2 (by decide)).2.2.2.2.2 _ (by decide),
          (h.2.2.2 (by decide)).2.2.2.2.2 _ (by decide)⟩⟩

/-- C5, as stated, fails: the request for codec `h264_nvenc`, 30 frames per second and
4294968 kbps on a fresh window without nvenc, the encoder start succeeding, leaves `avconfig_`
with a bitrate of 704 bits per second, not 4294968 * 1000: line 222 multiplies in 32-bit
unsigned arithmetic and 4294968000 is 704 modulo 2^32. -/
theorem C5_bitrate_wraps_at_32_bits :
    atoi "30" = some 30 ∧ atoi "4294968" = some 4294968 ∧
    nvenc_info.is_supported World.idle = false ∧
    (MainWindow.fresh.StartLive 0 true .EVENT_TYPE_RTSP_SERVER
        ["h264_nvenc", "30", "4294968"] scenario_live_settings World.idle).map
        (fun x => (x.1, x.2.1.avconfig_)) =
      some (true, { bitrate_bps := 704, framerate := 30, codec := "h264" }) ∧
    (MainWindow.fresh.StartLive 0 true .EVENT_TYPE_RTSP_SERVER
        ["h264_nvenc", "30", "4294968"] scenario_live_settings World.idle).map
        (fun x => encoderStarts x.2.2.log) = some [0] ∧
    (704 : Int) ≠ 4294968 * 1000 := by
  decide

/-- C5, amended: a `StartLive` request for codec `h264_nvenc` on a machine where
`nvenc_info.is_supported()` is false, whose encoder start (if one is needed) succeeds, leaves
`avconfig_` with codec `h264`, with the requested frame rate reduced modulo 2^32 and with the
requested kbps times 1000 reduced modulo 2^32, as the 32-bit unsigned arithmetic of the source
computes them: the frame rate is the requested one when that is not negative, and the
bitrate is the requested kbps times 1000 when the kbps are not negative and the product is
below 2^32. The two numbers are those the same request gives on a machine with nvenc. When the
encoder is started, the value passed to `StartEncoder` is the configuration that is stored. -/
theorem C5_nvenc_fallback_keeps_rates (encoder_ret : Int) (live_ret : Bool) (self : MainWindow)
    (event_type : EventType) (framerate bitrate : String) (rest live_settings : List String)
    (w : World) (f b : Int)
    (hf : atoi framerate = some f) (hb : atoi bitrate = some b)
    (hnv : nvenc_info.is_supported w = false) (hov : self.overlay_ = true)
    (hok : 0 ≤ encoder_ret)
    (hls : MainWindow.StartLive.live_settings_ok event_type live_settings = true) :
    ∃ r self1 w1 added,
      self.StartLive encoder_ret live_ret event_type
        ("h264_nvenc" :: framerate :: bitrate :: rest) live_settings w = some (r, self1, w1) ∧
      self1.avconfig_.codec = "h264" ∧
      (self1.avconfig_.framerate : Int) = f % 4294967296 ∧
      (self1.avconfig_.bitrate_bps : Int) = b * 1000 % 4294967296 ∧
      (0 ≤ f → (self1.avconfig_.framerate : Int) = f) ∧
      (0 ≤ b → b * 1000 < 4294967296 → (self1.avconfig_.bitrate_bps : Int) = b * 1000) ∧
      MainWindow.StartLive.avconfig ("h264_nvenc" :: framerate :: bitrate :: rest)
          { w with nvenc_supported := true } =
        some { self1.avconfig_ with codec := "h264_nvenc" } ∧
      w1.log = w.log ++ added ∧
      (self.avconfig_ ≠ self1.avconfig_ →
        ∃ tail, added =
          [Call.StopLive .SCREEN_LIVE_RTSP_SERVER, Call.StopLive .SCREEN_LIVE_RTSP_PUSHER,
           Call.StopLive .SCREEN_LIVE_RTMP_PUSHER,
           Call.SetLiveState .EVENT_TYPE_RTSP_SERVER false,
           Call.SetLiveState .EVENT_TYPE_RTSP_PUSHER false,
           Call.SetLiveState .EVENT_TYPE_RTMP_PUSHER false, Call.StopEncoder,
           Call.StartEncoder self1.avconfig_ encoder_ret] ++
          tail ∧ encoderStarts tail = []) := by
  have hcand : MainWindow.StartLive.avconfig ("h264_nvenc" :: framerate :: bitrate :: rest) w =
      some { bitrate_bps := toUInt32 b * 1000 % 4294967296, framerate := toUInt32 f,
             codec := "h264" } := by
    simp [MainWindow.StartLive.avconfig, hf, hb, hnv]
  have hcast : ∀ v : Int, (toUInt32 v : Int) = v % 4294967296 := by
    intro v
    unfold toUInt32
    exact Int.toNat_of_nonneg (Int.emod_nonneg v (by norm_num))
  have hfr : (toUInt32 f : Int) = f % 4294967296 := hcast f
  have hbr : ((toUInt32 b * 1000 % 4294967296 : Nat) : Int) = b * 1000 % 4294967296 := by
    have hb32 := hcast b
    push_cast
    omega
  have hfrange : -2147483648 ≤ f ∧ f ≤ 2147483647 := by
    unfold atoi at hf
    split at hf
    · rename_i hr
      cases hf
      exact hr
    · cases hf
  have hsup : MainWindow.StartLive.avconfig ("h264_nvenc" :: framerate :: bitrate :: rest)
      { w with nvenc_supported := true } =
      some { bitrate_bps := toUInt32 b * 1000 % 4294967296, framerate := toUInt32 f,
             codec := "h264_nvenc" } := by
    simp [MainWindow.StartLive.avconfig, hf, hb, nvenc_info.is_supported]
  have key : ∃ r self1 w1 added,
      self.StartLive encoder_ret live_ret event_type
        ("h264_nvenc" :: framerate :: bitrate :: rest) live_settings w = some (r, self1, w1) ∧
      self1.avconfig_ = (⟨toUInt32 b * 1000 % 4294967296, toUInt32 f, "h264"⟩ : AVConfig) ∧
      w1.log = w.log ++ added ∧
      (self.avconfig_ ≠ self1.avconfig_ →
        ∃ tail, added =
          [Call.StopLive .SCREEN_LIVE_RTSP_SERVER, Call.StopLive .SCREEN_LIVE_RTSP_PUSHER,
           Call.StopLive .SCREEN_LIVE_RTMP_PUSHER,
           Call.SetLiveState .EVENT_TYPE_RTSP_SERVER false,
           Call.SetLiveState .EVENT_TYPE_RTSP_PUSHER false,
           Call.SetLiveState .EVENT_TYPE_RTMP_PUSHER false, Call.StopEncoder,
           Call.StartEncoder self1.avconfig_ encoder_ret] ++
          tail ∧ encoderStarts tail = []) := by
    by_cases hne : self.avconfig_ =
        (⟨toUInt32 b * 1000 % 4294967296, toUInt32 f, "h264"⟩ : AVConfig)
    · have hsame : self.StartLive encoder_ret live_ret event_type
          ("h264_nvenc" :: framerate :: bitrate :: rest) live_settings w =
          MainWindow.StartLive.target live_ret self event_type live_settings w := by
        simp [MainWindow.StartLive, hcand, hne]
      obtain ⟨r, w1, hw1⟩ := target_total live_ret self event_type live_settings w hls
      obtain ⟨-, -, -, -, added, hlog, -, -⟩ := target_some _ _ _ _ _ _ _ _ hw1
      exact ⟨r, self, w1, added, by rw [hsame, hw1], hne, hlog, fun h => absurd rfl h⟩
    · have hch : self.StartLive encoder_ret live_ret event_type
          ("h264_nvenc" :: framerate :: bitrate :: rest) live_settings w =
          MainWindow.StartLive.target live_ret
            { self with avconfig_ :=
                (⟨toUInt32 b * 1000 % 4294967296, toUInt32 f, "h264"⟩ : AVConfig) }
            event_type live_settings
            (ScreenLive.StartEncoder encoder_ret
              (⟨toUInt32 b * 1000 % 4294967296, toUInt32 f, "h264"⟩ : AVConfig)
              (MainWindow.StartLive.reset w)).2 := by
        simp [MainWindow.StartLive, hcand, hne, hov, ScreenLive.StartEncoder, not_lt.mpr hok]
      obtain ⟨r, w1, hw1⟩ := target_total live_ret
        { self with avconfig_ :=
            (⟨toUInt32 b * 1000 % 4294967296, toUInt32 f, "h264"⟩ : AVConfig) }
        event_type live_settings
        (ScreenLive.StartEncoder encoder_ret
          (⟨toUInt32 b * 1000 % 4294967296, toUInt32 f, "h264"⟩ : AVConfig)
          (MainWindow.StartLive.reset w)).2 hls
      obtain ⟨-, -, -, -, tail, hlog, htail, -⟩ := target_some _ _ _ _ _ _ _ _ hw1
      refine ⟨r, _, w1, _, by rw [hch, hw1], rfl, ?_, fun _ => ⟨tail, rfl, htail⟩⟩
      rw [hlog]
      simp [ScreenLive.StartEncoder, not_lt.mpr hok, World.record, MainWindow.StartLive.reset,
        ScreenLive.StopLive, ScreenLive.StopEncoder, Overlay.SetLiveState, World.setRunning]
  obtain ⟨r, self1, w1, added, hrun, hcfg, hlog, hstart⟩ := key
  refine ⟨r, self1, w1, added, hrun, ?_, ?_, ?_, ?_, ?_, ?_, hlog, hstart⟩
  · rw [hcfg]
  · rw [hcfg]; exact hfr
  · rw [hcfg]; exact hbr
  · intro h0
    rw [hcfg]
    show (toUInt32 f : Int) = f
    omega
  · intro h0 h1
    rw [hcfg]
    show ((toUInt32 b * 1000 % 4294967296 : Nat) : Int) = b * 1000
    omega
  · rw [hsup, hcfg]

/-- Witness of C5: codec h264_nvenc at 30 frames per second and 5000 kbps on a fresh window,
no nvenc, the encoder start succeeding. -/
theorem C5_nvenc_fallback_keeps_rates_witness :
    atoi "30" = some 30 ∧ atoi "5000" = some 5000 ∧
    nvenc_info.is_supported World.idle = false ∧ MainWindow.fresh.overlay_ = true ∧
    (0 : Int) ≤ 0 ∧
    MainWindow.StartLive.live_settings_ok .EVENT_TYPE_RTSP_SERVER scenario_live_settings
      = true ∧
    ∃ r self1 w1,
      MainWindow.fresh.StartLive 0 true .EVENT_TYPE_RTSP_SERVER
        ["h264_nvenc", "30", "5000"] scenario_live_settings World.idle = some (r, self1, w1) ∧
      self1.avconfig_.codec = "h264" ∧
      (self1.avconfig_.framerate : Int) = 30 ∧
      (self1.avconfig_.bitrate_bps : Int) = 5000 * 1000 :=
  ⟨by decide, by decide, by decide, by decide, by decide, by decide,
    (C5_nvenc_fallback_keeps_rates 0 true MainWindow.fresh .EVENT_TYPE_RTSP_SERVER "30" "5000"
      [] scenario_live_settings World.idle 30 5000 (by decide) (by decide) (by decide)
      (by decide) (by decide) (by decide)).elim
      fun r h => h.elim fun self1 h => h.elim fun w1 h => h.elim fun _ h =>
        ⟨r, self1, w1, h.1, h.2.1, h.2.2.2.2.1 (by decide),
          h.2.2.2.2.2.1 (by decide) (by decide)⟩⟩

/-- C6: when `StartEncoder` is attempted and returns a negative value, `StartLive` returns
false, the calls of the request are the three stops, the three overlay updates, `StopEncoder`
and the failed `StartEncoder` (no start of a live target), every member including `avconfig_`
is what it was before, and the encoder is not ready afterwards. -/
theorem C6_encoder_start_failure (encoder_ret : Int) (live_ret : Bool) (self : MainWindow)
    (event_type : EventType) (encoder_settings live_settings : List String) (w : World)
    (avconfig : AVConfig)
    (hcand : MainWindow.StartLive.avconfig encoder_settings w = some avconfig)
    (hne : self.avconfig_ ≠ avconfig) (hov : self.overlay_ = true)
    (hfail : encoder_ret < 0) :
    ∃ w1,
      self.StartLive encoder_ret live_ret event_type encoder_settings live_settings w =
        some (false, self, w1) ∧
      w1.log = w.log ++
        [Call.StopLive .SCREEN_LIVE_RTSP_SERVER, Call.StopLive .SCREEN_LIVE_RTSP_PUSHER,
         Call.StopLive .SCREEN_LIVE_RTMP_PUSHER,
         Call.SetLiveState .EVENT_TYPE_RTSP_SERVER false,
         Call.SetLiveState .EVENT_TYPE_RTSP_PUSHER false,
         Call.SetLiveState .EVENT_TYPE_RTMP_PUSHER false, Call.StopEncoder,
         Call.StartEncoder avconfig encoder_ret] ∧
      w1.encoder_ready = false ∧
      ∀ type, w1.running type = false :=
  StartLive_changed_fail encoder_ret live_ret self event_type encoder_settings live_settings w
    avconfig hcand hne hov hfail

/-- Witness of C6: the spec scenario on a fresh window, `StartEncoder` returning -1. -/
theorem C6_encoder_start_failure_witness :
    MainWindow.StartLive.avconfig scenario_encoder_settings World.idle =
      some scenario_avconfig ∧
    MainWindow.fresh.avconfig_ ≠ scenario_avconfig ∧
    MainWindow.fresh.overlay_ = true ∧ (-1 : Int) < 0 ∧
    ∃ w1,
      MainWindow.fresh.StartLive (-1) true .EVENT_TYPE_RTSP_SERVER scenario_encoder_settings
        scenario_live_settings World.idle = some (false, MainWindow.fresh, w1) ∧
      w1.log = World.idle.log ++
        [Call.StopLive .SCREEN_LIVE_RTSP_SERVER, Call.StopLive .SCREEN_LIVE_RTSP_PUSHER,
         Call.StopLive .SCREEN_LIVE_RTMP_PUSHER,
         Call.SetLiveState .EVENT_TYPE_RTSP_SERVER false,
         Call.SetLiveState .EVENT_TYPE_RTSP_PUSHER false,
         Call.SetLiveState .EVENT_TYPE_RTMP_PUSHER false, Call.StopEncoder,
         Call.StartEncoder scenario_avconfig (-1)] ∧
      w1.encoder_ready = false ∧
      ∀ type, w1.running type = false :=
  ⟨by decide, by decide, by decide, by decide,
    C6_encoder_start_failure (-1) true MainWindow.fresh .EVENT_TYPE_RTSP_SERVER
      scenario_encoder_settings scenario_live_settings World.idle scenario_avconfig
      (by decide) (by decide) (by decide) (by decide)⟩

/-- C7: when the candidate configuration equals `avconfig_` and the encoder reports itself
initialized, `StartLive` for one of the three targets issues exactly two calls, the
`IsEncoderInitialized` query and one `ScreenLive::StartLive` for that target (no encoder stop or
start, no target stop), returns the result of that call, and whatever the result keeps every
member including `avconfig_`, the encoder-ready state and the states of the other two
targets; the requested target is Running afterwards if the start succeeded and keeps its
state otherwise. -/
theorem C7_same_config_starts_one_target (encoder_ret : Int) (live_ret : Bool)
    (self : MainWindow) (type : ScreenLiveType) (encoder_settings live_settings : List String)
    (live_config : LiveConfig) (w : World)
    (hcand : MainWindow.StartLive.avconfig encoder_settings w = some self.avconfig_)
    (hready : w.encoder_ready = true)
    (hcfg : MainWindow.StartLive.live_config type live_settings = some live_config) :
    ∃ w1,
      self.StartLive encoder_ret live_ret type.event encoder_settings live_settings w =
        some (live_ret, self, w1) ∧
      w1.log = w.log ++
        [Call.IsEncoderInitialized true, Call.StartLive type live_config live_ret] ∧
      w1.encoder_ready = w.encoder_ready ∧
      (∀ u, u ≠ type → w1.running u = w.running u) ∧
      w1.running type = (live_ret || w.running type) := by
  have hsame := StartLive_same encoder_ret live_ret self type.event encoder_settings
    live_settings w hcand
  have htar := target_event live_ret self type live_settings live_config w hcfg
  rw [if_pos hready] at htar
  refine ⟨(ScreenLive.StartLive live_ret type live_config
    (ScreenLive.IsEncoderInitialized w).2).2, by rw [hsame, htar], ?_, ?_, ?_, ?_⟩
  · cases live_ret <;> cases type <;>
      simp [ScreenLive.StartLive, ScreenLive.IsEncoderInitialized, World.record,
        World.setRunning, hready]
  · cases live_ret <;> cases type <;>
      simp [ScreenLive.StartLive, ScreenLive.IsEncoderInitialized, World.record,
        World.setRunning]
  · intro u hu
    cases live_ret <;> cases type <;> cases u <;>
      simp_all [ScreenLive.StartLive, ScreenLive.IsEncoderInitialized, World.record,
        World.setRunning, World.running]
  · cases live_ret <;> cases type <;>
      simp [ScreenLive.StartLive, ScreenLive.IsEncoderInitialized, World.record,
        World.setRunning, World.running]

/-- Witness of C7: the second scenario of the spec, an RTMP push requested with the settings
of the running session (encoder ready, RTSP server Running). -/
theorem C7_same_config_starts_one_target_witness :
    MainWindow.StartLive.avconfig scenario_encoder_settings
        { World.idle with encoder_ready := true, rtsp_server := true } =
      some ({ MainWindow.fresh with avconfig_ := scenario_avconfig }).avconfig_ ∧
    ({ World.idle with encoder_ready := true, rtsp_server := true } : World).encoder_ready
      = true ∧
    MainWindow.StartLive.live_config .SCREEN_LIVE_RTMP_PUSHER ["rtmp://127.0.0.1/live/01"] =
      some { LiveConfig.default with rtmp_url := some "rtmp://127.0.0.1/live/01" } ∧
    ∃ w1,
      ({ MainWindow.fresh with avconfig_ := scenario_avconfig }).StartLive 0 true
          ScreenLiveType.SCREEN_LIVE_RTMP_PUSHER.event scenario_encoder_settings
          ["rtmp://127.0.0.1/live/01"]
          { World.idle with encoder_ready := true, rtsp_server := true } =
        some (true, { MainWindow.fresh with avconfig_ := scenario_avconfig }, w1) ∧
      w1.log = ({ World.idle with encoder_ready := true, rtsp_server := true } : World).log ++
        [Call.IsEncoderInitialized true,
         Call.StartLive .SCREEN_LIVE_RTMP_PUSHER
           { LiveConfig.default with rtmp_url := some "rtmp://127.0.0.1/live/01" } true] ∧
      w1.encoder_ready =
        ({ World.idle with encoder_ready := true, rtsp_server := true } : World).encoder_ready ∧
      (∀ u, u ≠ ScreenLiveType.SCREEN_LIVE_RTMP_PUSHER → w1.running u =
        ({ World.idle with encoder_ready := true, rtsp_server := true } : World).running u) ∧
      w1.running .SCREEN_LIVE_RTMP_PUSHER = (true ||
        ({ World.idle with encoder_ready := true, rtsp_server := true } : World).running
          .SCREEN_LIVE_RTMP_PUSHER) :=
  ⟨by decide, by decide, by decide,
    C7_same_config_starts_one_target 0 true
      { MainWindow.fresh with avconfig_ := scenario_avconfig } .SCREEN_LIVE_RTMP_PUSHER
      scenario_encoder_settings ["rtmp://127.0.0.1/live/01"]
      { LiveConfig.default with rtmp_url := some "rtmp://127.0.0.1/live/01" }
      { World.idle with encoder_ready := true, rtsp_server := true }
      (by decide) (by decide) (by decide)⟩

/-- C8: `StopLive` for one of the three targets issues exactly one call, the stop of that
target: no member of `MainWindow` (so not `avconfig_`) is written, the encoder-ready state and
the states of the other two targets are what they were, and the target is Stopped. -/
theorem C8_stop_touches_one_target (self : MainWindow) (type : ScreenLiveType) (w : World) :
    (self.StopLive type.event w).1 = self ∧
    (self.StopLive type.event w).2.log = w.log ++ [Call.StopLive type] ∧
    (self.StopLive type.event w).2.encoder_ready = w.encoder_ready ∧
    (self.StopLive type.event w).2.nvenc_supported = w.nvenc_supported ∧
    (∀ u, u ≠ type → (self.StopLive type.event w).2.running u = w.running u) ∧
    (self.StopLive type.event w).2.running type = false := by
  refine ⟨?_, ?_, ?_, ?_, ?_, ?_⟩
  · cases type <;> rfl
  · cases type <;> rfl
  · cases type <;> rfl
  · cases type <;> rfl
  · intro u hu
    cases type <;> cases u <;>
      simp_all [MainWindow.StopLive, ScreenLiveType.event, ScreenLive.StopLive, World.record,
        World.setRunning, World.running]
  · cases type <;> rfl

/-- C9, as stated, fails: in the running session of the spec scenario, a `StartLive` that
succeeds for the RTMP pusher turns that target Running, and a `StopLive` of the RTSP server
turns that target Stopped, yet neither issues a `SetLiveState` call: nothing is pushed to the
overlay. -/
theorem C9_start_and_stop_push_nothing :
    MainWindow.live.StartLive 0 true .EVENT_TYPE_RTMP_PUSHER scenario_encoder_settings
        ["rtmp://127.0.0.1/live/01"] World.live =
      some (true, MainWindow.live,
        { World.live with
            rtmp_pusher := true
            log := [Call.IsEncoderInitialized true,
                    Call.StartLive .SCREEN_LIVE_RTMP_PUSHER
                      { LiveConfig.default with rtmp_url := some "rtmp://127.0.0.1/live/01" }
                      true] }) ∧
    World.live.rtmp_pusher = false ∧
    overlayPushes [Call.IsEncoderInitialized true,
                   Call.StartLive .SCREEN_LIVE_RTMP_PUSHER
                     { LiveConfig.default with rtmp_url := some "rtmp://127.0.0.1/live/01" }
                     true] = [] ∧
    MainWindow.live.StopLive .EVENT_TYPE_RTSP_SERVER World.live =
      (MainWindow.live,
        { World.live with
            rtsp_server := false, log := [Call.StopLive .SCREEN_LIVE_RTSP_SERVER] }) ∧
    World.live.rtsp_server = true ∧
    overlayPushes [Call.StopLive .SCREEN_LIVE_RTSP_SERVER] = [] := by
  decide

/-- C9, amended: the session controller pushes target state to the overlay only in the forced
stop of a configuration change. A `StartLive` request pushes (RTSP server, false), (RTSP pusher,
false), (RTMP pusher, false), in that order, when its candidate differs from `avconfig_`, and
nothing otherwise, whether or not its target start succeeds; `StopLive` pushes nothing. -/
theorem C9_only_forced_stop_is_pushed (encoder_ret : Int) (live_ret : Bool)
    (self : MainWindow) (event_type : EventType) (encoder_settings live_settings : List String)
    (w : World) (avconfig : AVConfig)
    (hcand : MainWindow.StartLive.avconfig encoder_settings w = some avconfig)
    (hov : self.overlay_ = true)
    (hls : MainWindow.StartLive.live_settings_ok event_type live_settings = true) :
    (∃ r self1 w1 added,
      self.StartLive encoder_ret live_ret event_type encoder_settings live_settings w =
        some (r, self1, w1) ∧
      w1.log = w.log ++ added ∧
      overlayPushes added =
        if self.avconfig_ ≠ avconfig then
          [(EventType.EVENT_TYPE_RTSP_SERVER, false), (EventType.EVENT_TYPE_RTSP_PUSHER, false),
           (EventType.EVENT_TYPE_RTMP_PUSHER, false)]
        else []) ∧
    ∀ stop_type : EventType, ∃ added,
      (self.StopLive stop_type w).2.log = w.log ++ added ∧ overlayPushes added = [] := by
  constructor
  · by_cases hne : self.avconfig_ = avconfig
    · have hsame := StartLive_same encoder_ret live_ret self event_type encoder_settings
        live_settings w (by rw [hcand, hne])
      obtain ⟨r, w1, hw1⟩ := target_total live_ret self event_type live_settings w hls
      obtain ⟨-, -, -, -, added, hlog, -, hpush⟩ := target_some _ _ _ _ _ _ _ _ hw1
      exact ⟨r, self, w1, added, by rw [hsame, hw1], hlog, by rw [hpush]; simp [hne]⟩
    · by_cases hneg : encoder_ret < 0
      · obtain ⟨w1, hrun, hlog, -, -⟩ := StartLive_changed_fail encoder_ret live_ret self
          event_type encoder_settings live_settings w avconfig hcand hne hov hneg
        exact ⟨false, self, w1, _, hrun, hlog, by simp [hne, overlayPushes, Call.overlayPush]⟩
      · obtain ⟨r, w1, tail, hrun, hlog, -, htail, -⟩ := StartLive_changed_ok encoder_ret
          live_ret self event_type encoder_settings live_settings w avconfig hcand hne hov hls
          (not_lt.mp hneg)
        refine ⟨r, _, w1, _, hrun, by rw [hlog, List.append_assoc], ?_⟩
        unfold overlayPushes at htail ⊢
        rw [List.filterMap_append, htail]
        simp [hne, Call.overlayPush]
  · intro stop_type
    cases stop_type with
    | other n => exact ⟨[], by simp [MainWindow.StopLive], rfl⟩
    | EVENT_TYPE_RTSP_SERVER =>
      exact ⟨[Call.StopLive .SCREEN_LIVE_RTSP_SERVER], rfl, rfl⟩
    | EVENT_TYPE_RTSP_PUSHER =>
      exact ⟨[Call.StopLive .SCREEN_LIVE_RTSP_PUSHER], rfl, rfl⟩
    | EVENT_TYPE_RTMP_PUSHER =>
      exact ⟨[Call.StopLive .SCREEN_LIVE_RTMP_PUSHER], rfl, rfl⟩

/-- Witness of C9: the third scenario of the spec, an RTSP push requested with 25 frames per
second in the running session: the three forced stops are pushed. -/
theorem C9_only_forced_stop_is_pushed_witness :
    MainWindow.StartLive.avconfig ["h264", "25", "5000"] World.live =
      some { bitrate_bps := 5000000, framerate := 25, codec := "h264" } ∧
    MainWindow.live.overlay_ = true ∧
    MainWindow.StartLive.live_settings_ok .EVENT_TYPE_RTSP_PUSHER
      ["rtsp://127.0.0.1:554/test"] = true ∧
    ∃ r self1 w1 added,
      MainWindow.live.StartLive 0 true .EVENT_TYPE_RTSP_PUSHER ["h264", "25", "5000"]
        ["rtsp://127.0.0.1:554/test"] World.live = some (r, self1, w1) ∧
      w1.log = World.live.log ++ added ∧
      overlayPushes added =
        [(EventType.EVENT_TYPE_RTSP_SERVER, false), (EventType.EVENT_TYPE_RTSP_PUSHER, false),
         (EventType.EVENT_TYPE_RTMP_PUSHER, false)] :=
  ⟨by decide, by decide, by decide,
    (C9_only_forced_stop_is_pushed 0 true MainWindow.live .EVENT_TYPE_RTSP_PUSHER
      ["h264", "25", "5000"] ["rtsp://127.0.0.1:554/test"] World.live
      { bitrate_bps := 5000000, framerate := 25, codec := "h264" }
      (by decide) (by decide) (by decide)).1.elim
      fun r h => h.elim fun self1 h => h.elim fun w1 h => h.elim fun added h =>
        ⟨r, self1, w1, added, h.1, h.2.1, h.2.2.trans (if_pos (by decide))⟩⟩

/-! ## The claim on the presentation surface -/

/-- C10, as stated, fails: a 1920 x 1080 frame is shown, the window is resized (`Resize`
destroys the texture in `ClearD3D` and leaves `texture_` null), and the next frame is
1280 x 720. The surface is live and the size differs from that of the previous call, yet no
texture destroy happens inside the call: it creates the texture, copies and presents. -/
theorem C10_no_destroy_after_resize :
    first_frame.1 = true ∧
    (first_frame.2.1.texture_width_, first_frame.2.1.texture_height_) = (1920, 1080) ∧
    MainWindow.Resize 100 (1280, 820) [some { name := "direct3d", flags := 2 }] true true
      first_frame.2.1 first_frame.2.2 = some resized ∧
    resized.1.IsWindow = true ∧ resized.1.texture_ = false ∧
    frame_after_resize.1 = true ∧
    frame_after_resize.2.2.log = resized.2.log ++
      [Call.SDL_CreateTexture .SDL_PIXELFORMAT_ARGB8888 1280 720 true, Call.SDL_LockTexture 0,
       Call.memcpy 3686400, Call.SDL_UnlockTexture, Call.SDL_RenderClear,
       Call.SDL_RenderCopy { x := 0, y := 0, w := 1280, h := 720 }, Call.Overlay_Render,
       Call.SDL_RenderPresent] ∧
    List.count Call.SDL_DestroyTexture
      [Call.SDL_CreateTexture .SDL_PIXELFORMAT_ARGB8888 1280 720 true, Call.SDL_LockTexture 0,
       Call.memcpy 3686400, Call.SDL_UnlockTexture, Call.SDL_RenderClear,
       Call.SDL_RenderCopy { x := 0, y := 0, w := 1280, h := 720 }, Call.Overlay_Render,
       Call.SDL_RenderPresent] = 0 := by
  decide

/-- C10, amended: on a live surface, an `UpdateARGB` call whose width or height differs from
the recorded texture size issues, in this order, one texture destroy if a texture exists and
none if `texture_` is null, exactly one texture creation with format ARGB8888 and the new
size, and then the pixel copy if the creation and the lock succeed. A call that finds
`texture_` null (first frame, after `ClearD3D`, after a failed creation) never destroys and
creates exactly once, whatever the size. A texture that exists after a call has format
ARGB8888 and the width and height just ingested, so while it exists the recorded size is that
of the previous call. A call that reaches the copy returns true with that format and size,
and the copy has width * height * 4 bytes (in the 32-bit unsigned arithmetic of the source,
exact while the product is below 2^32); a call returns true only if it reached the copy. -/
theorem C10_texture_follows_frame (create_ok : Bool) (lock_ret : Int) (self : MainWindow)
    (width height : Nat) (w : World) (hwin : self.IsWindow = true) :
    ∃ added,
      (self.UpdateARGB create_ok lock_ret width height w).2.2.log = w.log ++ added ∧
      (self.texture_width_ ≠ width ∨ self.texture_height_ ≠ height →
        textureCalls added =
          (if self.texture_ then [Call.SDL_DestroyTexture] else []) ++
          [Call.SDL_CreateTexture .SDL_PIXELFORMAT_ARGB8888 width height create_ok] ++
          (if create_ok = true ∧ 0 ≤ lock_ret then
            [Call.memcpy (width * height * 4 % 4294967296)] else [])) ∧
      (self.texture_ = false →
        textureCalls added =
          [Call.SDL_CreateTexture .SDL_PIXELFORMAT_ARGB8888 width height create_ok] ++
          (if create_ok = true ∧ 0 ≤ lock_ret then
            [Call.memcpy (width * height * 4 % 4294967296)] else [])) ∧
      ((self.UpdateARGB create_ok lock_ret width height w).2.1.texture_ = true →
        (self.UpdateARGB create_ok lock_ret width height w).2.1.texture_format_ =
          PixelFormat.SDL_PIXELFORMAT_ARGB8888 ∧
        (self.UpdateARGB create_ok lock_ret width height w).2.1.texture_width_ = width ∧
        (self.UpdateARGB create_ok lock_ret width height w).2.1.texture_height_ = height) ∧
      (∀ n, Call.memcpy n ∈ added →
        (self.UpdateARGB create_ok lock_ret width height w).1 = true ∧
        (self.UpdateARGB create_ok lock_ret width height w).2.1.texture_format_ =
          PixelFormat.SDL_PIXELFORMAT_ARGB8888 ∧
        (self.UpdateARGB create_ok lock_ret width height w).2.1.texture_width_ = width ∧
        (self.UpdateARGB create_ok lock_ret width height w).2.1.texture_height_ = height ∧
        n = width * height * 4 % 4294967296 ∧
        (width * height * 4 < 4294967296 → n = width * height * 4)) ∧
      ((self.UpdateARGB create_ok lock_ret width height w).1 = true →
        Call.memcpy (width * height * 4 % 4294967296) ∈ added) := by
  obtain ⟨ww, wh, vw, vh, ow, oh, av, win, ren, ov, tex, fmt, tw, th⟩ := self
  simp only [MainWindow.IsWindow] at hwin
  subst hwin
  by_cases hm : fmt ≠ PixelFormat.SDL_PIXELFORMAT_ARGB8888 ∨ tw ≠ width ∨ th ≠ height
  · rcases lt_or_le lock_ret 0 with hl | hl
    · have hl2 : ¬ 0 ≤ lock_ret := not_le.mpr hl
      cases tex <;> cases create_ok <;> cases ov <;>
        simp [MainWindow.UpdateARGB, MainWindow.IsWindow, hm, hl, hl2, World.record,
          textureCalls, Call.isTextureCall, Nat.mod_eq_of_lt]
    · have hl2 : ¬ lock_ret < 0 := not_lt.mpr hl
      cases tex <;> cases create_ok <;> cases ov <;>
        simp [MainWindow.UpdateARGB, MainWindow.IsWindow, hm, hl, hl2, World.record,
          textureCalls, Call.isTextureCall, Nat.mod_eq_of_lt]
  · have hm2 : fmt = PixelFormat.SDL_PIXELFORMAT_ARGB8888 ∧ tw = width ∧ th = height := by
      by_contra hcon
      apply hm
      by_cases h1 : fmt = PixelFormat.SDL_PIXELFORMAT_ARGB8888
      · by_cases h2 : tw = width
        · by_cases h3 : th = height
          · exact absurd ⟨h1, h2, h3⟩ hcon
          · exact Or.inr (Or.inr h3)
        · exact Or.inr (Or.inl h2)
      · exact Or.inl h1
    obtain ⟨rfl, rfl, rfl⟩ := hm2
    rcases lt_or_le lock_ret 0 with hl | hl
    · have hl2 : ¬ 0 ≤ lock_ret := not_le.mpr hl
      cases tex <;> cases create_ok <;> cases ov <;>
        simp [MainWindow.UpdateARGB, MainWindow.IsWindow, hl, hl2, World.record,
          textureCalls, Call.isTextureCall, Nat.mod_eq_of_lt]
    · have hl2 : ¬ lock_ret < 0 := not_lt.mpr hl
      cases tex <;> cases create_ok <;> cases ov <;>
        simp [MainWindow.UpdateARGB, MainWindow.IsWindow, hl, hl2, World.record,
          textureCalls, Call.isTextureCall, Nat.mod_eq_of_lt]

/-- Witness of C10: the last scenario of the spec, a 1920 x 1080 frame followed by a
1280 x 720 frame: the second call destroys the texture, creates it anew and copies
1280 * 720 * 4 bytes. -/
theorem C10_texture_follows_frame_witness :
    first_frame.2.1.IsWindow = true ∧
    ∃ added,
      (first_frame.2.1.UpdateARGB true 0 1280 720 first_frame.2.2).2.2.log =
        first_frame.2.2.log ++ added ∧
      textureCalls added =
        [Call.SDL_DestroyTexture,
         Call.SDL_CreateTexture .SDL_PIXELFORMAT_ARGB8888 1280 720 true,
         Call.memcpy 3686400] :=
  ⟨by decide,
    (C10_texture_follows_frame true 0 first_frame.2.1 1280 720 first_frame.2.2
      (by decide)).elim
      fun added h => ⟨added, h.1, (h.2.1 (Or.inl (by decide))).trans (by decide)⟩⟩
